import Mathlib

set_option maxHeartbeats 1000000

/-!
Verification development for the browser game client in `src/game.js`.

The client-side state-synchronization and simulation loop is embedded
shallowly: JavaScript numbers used for world coordinates become `ℚ`,
integer counters become `Nat`/`Int`, millisecond timestamps become `Int`,
and the mutable `GameClient` instance becomes an explicit `GameState`
record threaded through pure transition functions.  Each definition below
is a direct transcription of the correspondingly named method of
`GameClient`; JavaScript objects used as string-keyed maps become
association lists manipulated by `jsLookup` / `jsUpsert` / `jsDelete`,
which reproduce JavaScript property semantics (replace-in-place on an
existing key, append on a fresh key, removal by key).

The only systematic deviation from the source: where the source compares
`Math.sqrt(d)` against a non-negative threshold `t`, the embedding
compares `d < t^2`.  Both sides of the source comparison are
non-negative, so the squared comparison is equivalent and keeps every
definition computable over `ℚ`.

The calls to `Math.random()` in `spawnItems` / `spawnSnakes` are
abstracted by passing the drawn coordinates (and item types) as explicit
parameters; everything else about the spawned records (ids `0,1,2,...`,
`collected` initially `false`) is transcribed from the source.
-/

namespace Game

/-- The fixed set of collectible item types (`spawnItems`, line 226). -/
inductive ItemType
  | banana
  | apple
  | blueberry
deriving DecidableEq

/-- Player facing directions (`drawPlayer`, lines 688-697). -/
inductive Facing
  | north
  | south
  | east
  | west
deriving DecidableEq

/-- A player record as stored in `this.players`. -/
structure Player where
  playerId : String
  username : String
  avatar : String
  x : ℚ
  y : ℚ
  facing : Facing
  animationFrame : Nat
deriving DecidableEq

/-- A `players_moved` delta: only the supplied fields (the `some` ones)
are merged into the stored record by the object spread on line 457. -/
structure PlayerDelta where
  x : Option ℚ
  y : Option ℚ
  facing : Option Facing
  animationFrame : Option Nat
deriving DecidableEq

/-- An avatar definition from the server (three canonical directions of
frame image references; west is derived at draw time). -/
structure AvatarDef where
  name : String
  framesNorth : List String
  framesSouth : List String
  framesEast : List String
deriving DecidableEq

/-- A collectible item (`spawnItems`, lines 230-236). -/
structure Item where
  id : Nat
  type : ItemType
  x : ℚ
  y : ℚ
  collected : Bool
deriving DecidableEq

/-- A snake hazard (`spawnSnakes`, lines 293-297). -/
structure Snake where
  id : Nat
  x : ℚ
  y : ℚ
deriving DecidableEq

/-- A floating text effect (`addFloatingText`, lines 339-347). -/
structure FloatingText where
  x : ℚ
  y : ℚ
  text : String
  color : String
  life : Int
  maxLife : Int
  velocityY : ℚ
deriving DecidableEq

/-- The inventory counters (`constructor`, lines 35-39). -/
structure Inventory where
  bananas : Nat
  apples : Nat
  blueberries : Nat
deriving DecidableEq

/-- The mutable fields of the `GameClient` instance that the
synchronization and simulation loop reads and writes. -/
structure GameState where
  playerId : Option String
  myPlayer : Option Player
  players : List (String × Player)
  avatars : List (String × AvatarDef)
  cameraX : ℚ
  cameraY : ℚ
  canvasWidth : ℚ
  canvasHeight : ℚ
  worldWidth : ℚ
  worldHeight : ℚ
  playerHealth : Int
  items : List Item
  inventory : Inventory
  snakes : List Snake
  lastSnakeDamage : Int
  floatingTexts : List FloatingText
deriving DecidableEq

/-- `this.itemSize` (constructor, line 40): never reassigned. -/
def itemSize : ℚ := 20

/-- `this.snakeWidth` (constructor, line 44): never reassigned. -/
def snakeWidth : ℚ := 15

/-- `this.snakeHeight` (constructor, line 45): never reassigned. -/
def snakeHeight : ℚ := 35

/-- The approximate player radius used by both collision checks
(lines 248 and 319). -/
def playerRadius : ℚ := 15

/-- JavaScript property read `obj[k]` on a string-keyed object. -/
def jsLookup {α : Type} : List (String × α) → String → Option α
  | [], _ => none
  | (k', v) :: rest, k => if k' = k then some v else jsLookup rest k

/-- JavaScript property write `obj[k] = v`: replaces the value of an
existing key in place, otherwise appends the new key. -/
def jsUpsert {α : Type} : List (String × α) → String → α → List (String × α)
  | [], k, v => [(k, v)]
  | (k', v') :: rest, k, v =>
      if k' = k then (k, v) :: rest else (k', v') :: jsUpsert rest k v

/-- JavaScript `delete obj[k]`: removes the entry for `k` (an object
holds at most one entry per key). -/
def jsDelete {α : Type} : List (String × α) → String → List (String × α)
  | [], _ => []
  | (k', v') :: rest, k => if k' = k then jsDelete rest k else (k', v') :: jsDelete rest k

/-- Squared Euclidean distance between two points, the quantity under the
`Math.sqrt` of lines 252-255 and 313-316. -/
def distSq (x1 y1 x2 y2 : ℚ) : ℚ := (x1 - x2) ^ 2 + (y1 - y2) ^ 2

/-- `addFloatingText` (lines 338-349): a fresh effect with 60 frames of
life and an upward drift of 2 pixels per frame. -/
def mkFloatingText (x y : ℚ) (text color : String) : FloatingText :=
  { x := x, y := y, text := text, color := color,
    life := 60, maxLife := 60, velocityY := -2 }

/-- The loop body of `spawnItems` from loop counter `i` on: each
iteration appends one item with the next id and `collected := false`. -/
def spawnItemsFrom (i : Nat) : List (ItemType × ℚ × ℚ) → List Item
  | [] => []
  | d :: rest =>
      { id := i, type := d.1, x := d.2.1, y := d.2.2, collected := false } ::
        spawnItemsFrom (i + 1) rest

/-- `spawnItems` (lines 225-239): the `Math.random()` draws are passed in
as `(type, x, y)` triples; ids are assigned sequentially from 0 and
every item starts uncollected. -/
def spawnItems (draws : List (ItemType × ℚ × ℚ)) : List Item :=
  spawnItemsFrom 0 draws

/-- The loop body of `spawnSnakes` from loop counter `i` on. -/
def spawnSnakesFrom (i : Nat) : List (ℚ × ℚ) → List Snake
  | [] => []
  | d :: rest => { id := i, x := d.1, y := d.2 } :: spawnSnakesFrom (i + 1) rest

/-- `spawnSnakes` (lines 289-300): the `Math.random()` draws are passed
in as `(x, y)` pairs; ids are assigned sequentially from 0. -/
def spawnSnakes (draws : List (ℚ × ℚ)) : List Snake :=
  spawnSnakesFrom 0 draws

/-- The x coordinate of an item's center as used on line 253. -/
def itemCenterX (it : Item) : ℚ := it.x + itemSize / 2

/-- The y coordinate of an item's center as used on line 254. -/
def itemCenterY (it : Item) : ℚ := it.y + itemSize / 2

/-- The overlap test of `checkItemCollisions` (lines 247-261):
`distance < (playerRadius + itemRadius) - 0.1 * itemRadius`, stated on
squared distances. -/
def itemHit (p : Player) (it : Item) : Bool :=
  let itemRadius := itemSize / 2
  let overlapThreshold := itemRadius * (1 / 10)
  let totalRadius := playerRadius + itemRadius
  decide (distSq p.x p.y (itemCenterX it) (itemCenterY it) < (totalRadius - overlapThreshold) ^ 2)

/-- The inventory increment of `collectItem` (lines 270-278): the item
type selects exactly one counter through `itemTypeMap`. -/
def incInventory (inv : Inventory) : ItemType → Inventory
  | .banana => { inv with bananas := inv.bananas + 1 }
  | .apple => { inv with apples := inv.apples + 1 }
  | .blueberry => { inv with blueberries := inv.blueberries + 1 }

/-- `collectItem` (lines 267-287), with the guarded `this.myPlayer`
passed explicitly (the only call site, line 262, runs under the
`myPlayer` guard of line 242): marks the item collected, increments the
matching counter, heals 5 capped at 100, and spawns a "+5" effect. -/
def collectItem (p : Player) (s : GameState) (it : Item) : GameState × Item :=
  ( { s with
        inventory := incInventory s.inventory it.type,
        playerHealth := min 100 (s.playerHealth + 5),
        floatingTexts := s.floatingTexts ++ [mkFloatingText p.x (p.y - 30) "+5" "#00FF00"] },
    { it with collected := true } )

/-- One iteration of the `forEach` in `checkItemCollisions`
(lines 244-264): collected items are skipped, overlapping uncollected
items are collected. -/
def processItem (p : Player) (s : GameState) (it : Item) : GameState × Item :=
  if it.collected then (s, it)
  else if itemHit p it then collectItem p s it
  else (s, it)

/-- The full `forEach` over `this.items`, threading the mutated client
state and rebuilding the (never shrunk) item list in order. -/
def runItems (p : Player) (s : GameState) : List Item → GameState × List Item
  | [] => (s, [])
  | it :: rest =>
      let r1 := processItem p s it
      let r2 := runItems p r1.1 rest
      (r2.1, r1.2 :: r2.2)

/-- `checkItemCollisions` (lines 241-265). -/
def checkItemCollisions (s : GameState) : GameState :=
  match s.myPlayer with
  | none => s
  | some p =>
      let r := runItems p s s.items
      { r.1 with items := r.2 }

/-- The overlap test of `checkSnakeCollisions` (lines 310-323):
`distance < playerRadius + max(snakeWidth, snakeHeight) / 2`, stated on
squared distances. -/
def snakeHit (p : Player) (sn : Snake) : Bool :=
  let snakeCenterX := sn.x + snakeWidth / 2
  let snakeCenterY := sn.y + snakeHeight / 2
  let snakeRadius := max snakeWidth snakeHeight / 2
  let totalRadius := playerRadius + snakeRadius
  decide (distSq p.x p.y snakeCenterX snakeCenterY < totalRadius ^ 2)

/-- `takeSnakeDamage` (lines 330-336), with the guarded `this.myPlayer`
passed explicitly: subtracts 5 health floored at 0 and spawns a "-5"
effect. -/
def takeSnakeDamage (p : Player) (s : GameState) : GameState :=
  { s with
      playerHealth := max 0 (s.playerHealth - 5),
      floatingTexts := s.floatingTexts ++ [mkFloatingText p.x (p.y - 30) "-5" "#FF0000"] }

/-- One iteration of the `forEach` in `checkSnakeCollisions`
(lines 309-327): each overlapping snake applies damage and resets the
cooldown stamp to the tick's `currentTime`. -/
def processSnake (p : Player) (now : Int) (s : GameState) (sn : Snake) : GameState :=
  if snakeHit p sn then { takeSnakeDamage p s with lastSnakeDamage := now } else s

/-- `checkSnakeCollisions` (lines 302-328): skipped without a local
player, skipped when the 1000 ms cooldown has not elapsed, otherwise the
`forEach` over `this.snakes`; `currentTime` (`Date.now()`) is sampled
once at entry and passed in as `now`. -/
def checkSnakeCollisions (now : Int) (s : GameState) : GameState :=
  match s.myPlayer with
  | none => s
  | some p =>
      if now - s.lastSnakeDamage < 1000 then s
      else s.snakes.foldl (processSnake p now) s

/-- The per-element mutation inside the `filter` callback of
`updateFloatingTexts` (lines 353-354): `text.life--` and
`text.y += text.velocityY`. -/
def ageText (t : FloatingText) : FloatingText :=
  { t with life := t.life - 1, y := t.y + t.velocityY }

/-- `updateFloatingTexts` (lines 351-357): every effect is aged, then
exactly those with remaining positive life are kept, in order. -/
def updateFloatingTexts (s : GameState) : GameState :=
  { s with floatingTexts := (s.floatingTexts.map ageText).filter (fun t => decide (0 < t.life)) }

/-- `updateCamera` (lines 511-533). -/
def updateCamera (s : GameState) : GameState :=
  match s.myPlayer with
  | none => s
  | some p =>
      let naiveX := p.x - s.canvasWidth / 2
      let naiveY := p.y - s.canvasHeight / 2
      let cx :=
        if s.canvasWidth < s.worldWidth then
          max 0 (min naiveX (s.worldWidth - s.canvasWidth))
        else (s.worldWidth - s.canvasWidth) / 2
      let cy :=
        if s.canvasHeight < s.worldHeight then
          max 0 (min naiveY (s.worldHeight - s.canvasHeight))
        else (s.worldHeight - s.canvasHeight) / 2
      { s with cameraX := cx, cameraY := cy }

/-- The state-relevant part of one `render` invocation (lines 543-573):
the local simulation steps in source order — item collisions, snake
collisions, floating-text aging (drawing reads but never writes the
state). -/
def simTick (now : Int) (s : GameState) : GameState :=
  updateFloatingTexts (checkSnakeCollisions now (checkItemCollisions s))

/-- Inbound server messages, the cases of `handleServerMessage`
(lines 431-474); `unrecognized` is the `default` branch. -/
inductive ServerMessage
  | joinSuccess (playerId : String) (players : List (String × Player))
      (avatars : List (String × AvatarDef))
  | joinFailure (error : String)
  | playerJoined (player : Player) (avatar : AvatarDef)
  | playersMoved (players : List (String × PlayerDelta))
  | playerLeft (playerId : String)
  | unrecognized

/-- The object spread `{ ...old, ...delta }` of line 457: supplied
fields overwrite, unsupplied fields keep their previous values. -/
def mergePlayer (old : Player) (d : PlayerDelta) : Player :=
  { playerId := old.playerId, username := old.username, avatar := old.avatar,
    x := d.x.getD old.x, y := d.y.getD old.y,
    facing := d.facing.getD old.facing,
    animationFrame := d.animationFrame.getD old.animationFrame }

/-- One iteration of the `players_moved` loop (lines 455-464): unknown
ids are skipped; a known id is merged, and when it is the local id the
`myPlayer` reference is repointed and the camera recomputed. -/
def applyOneMove (s : GameState) (pid : String) (d : PlayerDelta) : GameState :=
  match jsLookup s.players pid with
  | none => s
  | some old =>
      let merged := mergePlayer old d
      let s1 := { s with players := jsUpsert s.players pid merged }
      if s.playerId = some pid then
        updateCamera { s1 with myPlayer := some merged }
      else s1

/-- `handleServerMessage` (lines 431-474).  `loadAllAvatarImages` /
`loadAvatarImagesForPlayer` only fill the image cache, which the
synchronization state does not contain. -/
def handleServerMessage (s : GameState) (m : ServerMessage) : GameState :=
  match m with
  | .joinSuccess pid ps avs =>
      updateCamera
        { s with
            playerId := some pid,
            players := ps,
            myPlayer := jsLookup ps pid,
            avatars := avs }
  | .joinFailure _ => s
  | .playerJoined p av =>
      { s with
          players := jsUpsert s.players p.playerId p,
          avatars := jsUpsert s.avatars av.name av }
  | .playersMoved ds => ds.foldl (fun st pd => applyOneMove st pd.1 pd.2) s
  | .playerLeft pid => { s with players := jsDelete s.players pid }
  | .unrecognized => s

/-- The resize listener of `setupCanvas` (lines 76-80): new canvas
dimensions, then `updateCamera`. -/
def resizeCanvas (s : GameState) (w h : ℚ) : GameState :=
  updateCamera { s with canvasWidth := w, canvasHeight := h }

/-- The state after the constructor and `init` (lines 1-68): no player
yet, full health, empty inventory, spawned items and snakes, zero
cooldown stamp, no floating texts, a 2048 by 2048 world. -/
def initState (itemDraws : List (ItemType × ℚ × ℚ)) (snakeDraws : List (ℚ × ℚ))
    (cw ch : ℚ) : GameState :=
  { playerId := none, myPlayer := none, players := [], avatars := [],
    cameraX := 0, cameraY := 0,
    canvasWidth := cw, canvasHeight := ch,
    worldWidth := 2048, worldHeight := 2048,
    playerHealth := 100,
    items := spawnItems itemDraws,
    inventory := { bananas := 0, apples := 0, blueberries := 0 },
    snakes := spawnSnakes snakeDraws,
    lastSnakeDamage := 0,
    floatingTexts := [] }

/-- Well-formedness of an inbound message: a JSON object cannot carry a
duplicate key, so the player map of a join acknowledgment has distinct
keys. -/
def MsgWF : ServerMessage → Prop
  | .joinSuccess _ ps _ => (ps.map Prod.fst).Nodup
  | _ => True

/-- The states a session can reach: the initial state, closed under
inbound message handling, simulation ticks and canvas resizes. -/
inductive Reachable : GameState → Prop
  | init (itemDraws : List (ItemType × ℚ × ℚ)) (snakeDraws : List (ℚ × ℚ)) (cw ch : ℚ) :
      Reachable (initState itemDraws snakeDraws cw ch)
  | msg {s : GameState} (m : ServerMessage) : Reachable s → MsgWF m →
      Reachable (handleServerMessage s m)
  | tick {s : GameState} (now : Int) : Reachable s → Reachable (simTick now s)
  | resize {s : GameState} (w h : ℚ) : Reachable s → Reachable (resizeCanvas s w h)

/-- Whether a message is a successful join acknowledgment. -/
def isJoinSuccess : ServerMessage → Bool
  | .joinSuccess _ _ _ => true
  | _ => false

/-- The states reachable before any successful join acknowledgment has
been handled ("not yet joined"). -/
inductive ReachableNoJoin : GameState → Prop
  | init (itemDraws : List (ItemType × ℚ × ℚ)) (snakeDraws : List (ℚ × ℚ)) (cw ch : ℚ) :
      ReachableNoJoin (initState itemDraws snakeDraws cw ch)
  | msg {s : GameState} (m : ServerMessage) : ReachableNoJoin s →
      isJoinSuccess m = false → ReachableNoJoin (handleServerMessage s m)
  | tick {s : GameState} (now : Int) : ReachableNoJoin s → ReachableNoJoin (simTick now s)
  | resize {s : GameState} (w h : ℚ) : ReachableNoJoin s → ReachableNoJoin (resizeCanvas s w h)

/-- The total of the three inventory counters. -/
def inventorySum (inv : Inventory) : Nat := inv.bananas + inv.apples + inv.blueberries

/-- The number of items flagged as collected. -/
def countCollected (l : List Item) : Nat := l.countP (fun it => it.collected)

/-! ### Frame lemmas: each operation written as a record update of the
fields it can touch, and the resulting field-preservation facts. -/

theorem updateCamera_eq_set (s : GameState) :
    ∃ cx cy, updateCamera s = { s with cameraX := cx, cameraY := cy } := by
  cases s with
  | mk pid mp ps avs cx0 cy0 cw ch ww wh hp its inv sns lsd fts =>
      cases mp with
      | none => exact ⟨cx0, cy0, rfl⟩
      | some p => exact ⟨_, _, rfl⟩

theorem updateCamera_playerId (s : GameState) : (updateCamera s).playerId = s.playerId := by
  obtain ⟨cx, cy, h⟩ := updateCamera_eq_set s; rw [h]

theorem updateCamera_myPlayer (s : GameState) : (updateCamera s).myPlayer = s.myPlayer := by
  obtain ⟨cx, cy, h⟩ := updateCamera_eq_set s; rw [h]

theorem updateCamera_players (s : GameState) : (updateCamera s).players = s.players := by
  obtain ⟨cx, cy, h⟩ := updateCamera_eq_set s; rw [h]

theorem updateCamera_playerHealth (s : GameState) :
    (updateCamera s).playerHealth = s.playerHealth := by
  obtain ⟨cx, cy, h⟩ := updateCamera_eq_set s; rw [h]

theorem updateCamera_items (s : GameState) : (updateCamera s).items = s.items := by
  obtain ⟨cx, cy, h⟩ := updateCamera_eq_set s; rw [h]

theorem updateCamera_inventory (s : GameState) : (updateCamera s).inventory = s.inventory := by
  obtain ⟨cx, cy, h⟩ := updateCamera_eq_set s; rw [h]

theorem updateCamera_snakes (s : GameState) : (updateCamera s).snakes = s.snakes := by
  obtain ⟨cx, cy, h⟩ := updateCamera_eq_set s; rw [h]

theorem updateCamera_lastSnakeDamage (s : GameState) :
    (updateCamera s).lastSnakeDamage = s.lastSnakeDamage := by
  obtain ⟨cx, cy, h⟩ := updateCamera_eq_set s; rw [h]

theorem updateCamera_floatingTexts (s : GameState) :
    (updateCamera s).floatingTexts = s.floatingTexts := by
  obtain ⟨cx, cy, h⟩ := updateCamera_eq_set s; rw [h]

theorem processSnake_eq_set (p : Player) (now : Int) (s : GameState) (sn : Snake) :
    ∃ h f t, processSnake p now s sn =
      { s with playerHealth := h, floatingTexts := f, lastSnakeDamage := t } := by
  unfold processSnake takeSnakeDamage
  split
  · exact ⟨_, _, _, rfl⟩
  · exact ⟨s.playerHealth, s.floatingTexts, s.lastSnakeDamage, rfl⟩

theorem snakeFold_eq_set (p : Player) (now : Int) :
    ∀ (l : List Snake) (s : GameState), ∃ h f t,
      l.foldl (processSnake p now) s =
        { s with playerHealth := h, floatingTexts := f, lastSnakeDamage := t }
  | [], s => ⟨s.playerHealth, s.floatingTexts, s.lastSnakeDamage, rfl⟩
  | sn :: rest, s => by
      obtain ⟨h2, f2, t2, e2⟩ := snakeFold_eq_set p now rest (processSnake p now s sn)
      obtain ⟨h1, f1, t1, e1⟩ := processSnake_eq_set p now s sn
      refine ⟨h2, f2, t2, ?_⟩
      rw [List.foldl_cons, e2, e1]

theorem checkSnakeCollisions_eq_set (now : Int) (s : GameState) :
    ∃ h f t, checkSnakeCollisions now s =
      { s with playerHealth := h, floatingTexts := f, lastSnakeDamage := t } := by
  cases s with
  | mk pid mp ps avs cx0 cy0 cw ch ww wh hp its inv sns lsd fts =>
      cases mp with
      | none => exact ⟨hp, fts, lsd, rfl⟩
      | some p =>
          dsimp only [checkSnakeCollisions]
          split
          · exact ⟨hp, fts, lsd, rfl⟩
          · exact snakeFold_eq_set p now sns _

theorem checkSnakeCollisions_items (now : Int) (s : GameState) :
    (checkSnakeCollisions now s).items = s.items := by
  obtain ⟨h, f, t, e⟩ := checkSnakeCollisions_eq_set now s; rw [e]

theorem checkSnakeCollisions_inventory (now : Int) (s : GameState) :
    (checkSnakeCollisions now s).inventory = s.inventory := by
  obtain ⟨h, f, t, e⟩ := checkSnakeCollisions_eq_set now s; rw [e]

theorem checkSnakeCollisions_myPlayer (now : Int) (s : GameState) :
    (checkSnakeCollisions now s).myPlayer = s.myPlayer := by
  obtain ⟨h, f, t, e⟩ := checkSnakeCollisions_eq_set now s; rw [e]

theorem checkSnakeCollisions_playerId (now : Int) (s : GameState) :
    (checkSnakeCollisions now s).playerId = s.playerId := by
  obtain ⟨h, f, t, e⟩ := checkSnakeCollisions_eq_set now s; rw [e]

theorem checkSnakeCollisions_players (now : Int) (s : GameState) :
    (checkSnakeCollisions now s).players = s.players := by
  obtain ⟨h, f, t, e⟩ := checkSnakeCollisions_eq_set now s; rw [e]

theorem collectItem_eq_set (p : Player) (s : GameState) (it : Item) :
    ∃ i h f, (collectItem p s it).1 =
      { s with inventory := i, playerHealth := h, floatingTexts := f } :=
  ⟨_, _, _, rfl⟩

theorem processItem_eq_set (p : Player) (s : GameState) (it : Item) :
    ∃ i h f, (processItem p s it).1 =
      { s with inventory := i, playerHealth := h, floatingTexts := f } := by
  unfold processItem
  split
  · exact ⟨s.inventory, s.playerHealth, s.floatingTexts, rfl⟩
  split
  · exact collectItem_eq_set p s it
  · exact ⟨s.inventory, s.playerHealth, s.floatingTexts, rfl⟩

theorem runItems_eq_set (p : Player) :
    ∀ (l : List Item) (s : GameState), ∃ i h f,
      (runItems p s l).1 = { s with inventory := i, playerHealth := h, floatingTexts := f }
  | [], s => ⟨s.inventory, s.playerHealth, s.floatingTexts, rfl⟩
  | it :: rest, s => by
      obtain ⟨i2, h2, f2, e2⟩ := runItems_eq_set p rest (processItem p s it).1
      obtain ⟨i1, h1, f1, e1⟩ := processItem_eq_set p s it
      refine ⟨i2, h2, f2, ?_⟩
      show (runItems p (processItem p s it).1 rest).1 = _
      rw [e2, e1]

theorem checkItemCollisions_eq_set (s : GameState) :
    ∃ i h f its, checkItemCollisions s =
      { s with inventory := i, playerHealth := h, floatingTexts := f, items := its } := by
  cases s with
  | mk pid mp ps avs cx0 cy0 cw ch ww wh hp its0 inv sns lsd fts =>
      cases mp with
      | none => exact ⟨inv, hp, fts, its0, rfl⟩
      | some p =>
          dsimp only [checkItemCollisions]
          obtain ⟨i, h, f, e⟩ := runItems_eq_set p its0
              (GameState.mk pid (some p) ps avs cx0 cy0 cw ch ww wh hp its0 inv sns lsd fts)
          rw [e]
          exact ⟨i, h, f, _, rfl⟩

theorem checkItemCollisions_myPlayer (s : GameState) :
    (checkItemCollisions s).myPlayer = s.myPlayer := by
  obtain ⟨i, h, f, its, e⟩ := checkItemCollisions_eq_set s; rw [e]

theorem checkItemCollisions_playerId (s : GameState) :
    (checkItemCollisions s).playerId = s.playerId := by
  obtain ⟨i, h, f, its, e⟩ := checkItemCollisions_eq_set s; rw [e]

theorem checkItemCollisions_players (s : GameState) :
    (checkItemCollisions s).players = s.players := by
  obtain ⟨i, h, f, its, e⟩ := checkItemCollisions_eq_set s; rw [e]

theorem checkItemCollisions_snakes (s : GameState) :
    (checkItemCollisions s).snakes = s.snakes := by
  obtain ⟨i, h, f, its, e⟩ := checkItemCollisions_eq_set s; rw [e]

theorem checkItemCollisions_lastSnakeDamage (s : GameState) :
    (checkItemCollisions s).lastSnakeDamage = s.lastSnakeDamage := by
  obtain ⟨i, h, f, its, e⟩ := checkItemCollisions_eq_set s; rw [e]

theorem updateFloatingTexts_items (s : GameState) :
    (updateFloatingTexts s).items = s.items := rfl

theorem updateFloatingTexts_inventory (s : GameState) :
    (updateFloatingTexts s).inventory = s.inventory := rfl

theorem updateFloatingTexts_playerHealth (s : GameState) :
    (updateFloatingTexts s).playerHealth = s.playerHealth := rfl

theorem updateFloatingTexts_myPlayer (s : GameState) :
    (updateFloatingTexts s).myPlayer = s.myPlayer := rfl

theorem updateFloatingTexts_playerId (s : GameState) :
    (updateFloatingTexts s).playerId = s.playerId := rfl

theorem updateFloatingTexts_players (s : GameState) :
    (updateFloatingTexts s).players = s.players := rfl

theorem applyOneMove_eq_set (s : GameState) (pid : String) (d : PlayerDelta) :
    ∃ ps mp cx cy, applyOneMove s pid d =
      { s with players := ps, myPlayer := mp, cameraX := cx, cameraY := cy } := by
  cases s with
  | mk pid0 mp0 ps0 avs cx0 cy0 cw ch ww wh hp its inv sns lsd fts =>
      dsimp only [applyOneMove]
      cases jsLookup ps0 pid with
      | none => exact ⟨ps0, mp0, cx0, cy0, rfl⟩
      | some old =>
          dsimp only
          split
          · obtain ⟨cx, cy, e⟩ := updateCamera_eq_set _
            rw [e]
            exact ⟨_, _, cx, cy, rfl⟩
          · exact ⟨_, mp0, cx0, cy0, rfl⟩

theorem applyOneMove_playerId (s : GameState) (pid : String) (d : PlayerDelta) :
    (applyOneMove s pid d).playerId = s.playerId := by
  obtain ⟨ps, mp, cx, cy, e⟩ := applyOneMove_eq_set s pid d; rw [e]

theorem applyOneMove_playerHealth (s : GameState) (pid : String) (d : PlayerDelta) :
    (applyOneMove s pid d).playerHealth = s.playerHealth := by
  obtain ⟨ps, mp, cx, cy, e⟩ := applyOneMove_eq_set s pid d; rw [e]

theorem applyOneMove_items (s : GameState) (pid : String) (d : PlayerDelta) :
    (applyOneMove s pid d).items = s.items := by
  obtain ⟨ps, mp, cx, cy, e⟩ := applyOneMove_eq_set s pid d; rw [e]

theorem applyOneMove_inventory (s : GameState) (pid : String) (d : PlayerDelta) :
    (applyOneMove s pid d).inventory = s.inventory := by
  obtain ⟨ps, mp, cx, cy, e⟩ := applyOneMove_eq_set s pid d; rw [e]

theorem applyOneMove_floatingTexts (s : GameState) (pid : String) (d : PlayerDelta) :
    (applyOneMove s pid d).floatingTexts = s.floatingTexts := by
  obtain ⟨ps, mp, cx, cy, e⟩ := applyOneMove_eq_set s pid d; rw [e]

theorem moveFold_eq_set :
    ∀ (ds : List (String × PlayerDelta)) (s : GameState),
      ∃ ps mp cx cy, ds.foldl (fun st pd => applyOneMove st pd.1 pd.2) s =
        { s with players := ps, myPlayer := mp, cameraX := cx, cameraY := cy }
  | [], s => ⟨s.players, s.myPlayer, s.cameraX, s.cameraY, rfl⟩
  | pd :: rest, s => by
      obtain ⟨ps2, mp2, cx2, cy2, e2⟩ := moveFold_eq_set rest (applyOneMove s pd.1 pd.2)
      obtain ⟨ps1, mp1, cx1, cy1, e1⟩ := applyOneMove_eq_set s pd.1 pd.2
      exact ⟨ps2, mp2, cx2, cy2, by rw [List.foldl_cons, e2, e1]⟩

theorem handleServerMessage_frame (s : GameState) (m : ServerMessage) :
    (handleServerMessage s m).playerHealth = s.playerHealth ∧
    (handleServerMessage s m).items = s.items ∧
    (handleServerMessage s m).inventory = s.inventory ∧
    (handleServerMessage s m).snakes = s.snakes ∧
    (handleServerMessage s m).lastSnakeDamage = s.lastSnakeDamage ∧
    (handleServerMessage s m).floatingTexts = s.floatingTexts := by
  cases m with
  | joinSuccess pid ps avs =>
      obtain ⟨cx, cy, e⟩ := updateCamera_eq_set
        { s with playerId := some pid, players := ps, myPlayer := jsLookup ps pid, avatars := avs }
      dsimp only [handleServerMessage]
      rw [e]
      exact ⟨rfl, rfl, rfl, rfl, rfl, rfl⟩
  | joinFailure err => exact ⟨rfl, rfl, rfl, rfl, rfl, rfl⟩
  | playerJoined p av => exact ⟨rfl, rfl, rfl, rfl, rfl, rfl⟩
  | playersMoved ds =>
      obtain ⟨ps, mp, cx, cy, e⟩ := moveFold_eq_set ds s
      dsimp only [handleServerMessage]
      rw [e]
      exact ⟨rfl, rfl, rfl, rfl, rfl, rfl⟩
  | playerLeft pid => exact ⟨rfl, rfl, rfl, rfl, rfl, rfl⟩
  | unrecognized => exact ⟨rfl, rfl, rfl, rfl, rfl, rfl⟩

theorem simTick_myPlayer (now : Int) (s : GameState) :
    (simTick now s).myPlayer = s.myPlayer := by
  unfold simTick
  rw [updateFloatingTexts_myPlayer, checkSnakeCollisions_myPlayer, checkItemCollisions_myPlayer]

theorem simTick_playerId (now : Int) (s : GameState) :
    (simTick now s).playerId = s.playerId := by
  unfold simTick
  rw [updateFloatingTexts_playerId, checkSnakeCollisions_playerId, checkItemCollisions_playerId]

theorem simTick_items (now : Int) (s : GameState) :
    (simTick now s).items = (checkItemCollisions s).items := by
  unfold simTick
  rw [updateFloatingTexts_items, checkSnakeCollisions_items]

theorem resizeCanvas_frame (s : GameState) (w h : ℚ) :
    (resizeCanvas s w h).playerId = s.playerId ∧
    (resizeCanvas s w h).myPlayer = s.myPlayer ∧
    (resizeCanvas s w h).players = s.players ∧
    (resizeCanvas s w h).playerHealth = s.playerHealth ∧
    (resizeCanvas s w h).items = s.items ∧
    (resizeCanvas s w h).inventory = s.inventory ∧
    (resizeCanvas s w h).snakes = s.snakes ∧
    (resizeCanvas s w h).lastSnakeDamage = s.lastSnakeDamage ∧
    (resizeCanvas s w h).floatingTexts = s.floatingTexts := by
  obtain ⟨cx, cy, e⟩ := updateCamera_eq_set { s with canvasWidth := w, canvasHeight := h }
  unfold resizeCanvas
  rw [e]
  exact ⟨rfl, rfl, rfl, rfl, rfl, rfl, rfl, rfl, rfl⟩

/-! ### C2 — camera recomputation -/

/-- What camera recomputation must yield per axis for a local player `p`:
below world size, the naive offset clamped into the legal band (hence in
`[0, world - viewport]`); at or above world size, exactly the centered
offset, independent of `p`. -/
def CameraSpec (s : GameState) (p : Player) : Prop :=
  ((s.canvasWidth < s.worldWidth →
      (updateCamera s).cameraX =
        max 0 (min (p.x - s.canvasWidth / 2) (s.worldWidth - s.canvasWidth)) ∧
      0 ≤ (updateCamera s).cameraX ∧
      (updateCamera s).cameraX ≤ s.worldWidth - s.canvasWidth) ∧
    (s.worldWidth ≤ s.canvasWidth →
      (updateCamera s).cameraX = (s.worldWidth - s.canvasWidth) / 2)) ∧
  ((s.canvasHeight < s.worldHeight →
      (updateCamera s).cameraY =
        max 0 (min (p.y - s.canvasHeight / 2) (s.worldHeight - s.canvasHeight)) ∧
      0 ≤ (updateCamera s).cameraY ∧
      (updateCamera s).cameraY ≤ s.worldHeight - s.canvasHeight) ∧
    (s.worldHeight ≤ s.canvasHeight →
      (updateCamera s).cameraY = (s.worldHeight - s.canvasHeight) / 2))

/-- C2: for every local player position, viewport size and world size,
`updateCamera` computes, per axis independently, the clamped naive
offset when the viewport dimension is strictly below the world
dimension (so the offset lies in `[0, world - viewport]`), and exactly
`(world - viewport) / 2` otherwise, independent of the player. -/
theorem camera_recompute_correct (s : GameState) (p : Player) (hp : s.myPlayer = some p) :
    CameraSpec s p := by
  unfold CameraSpec
  simp only [updateCamera, hp]
  refine ⟨⟨?_, ?_⟩, ⟨?_, ?_⟩⟩
  · intro hlt
    rw [if_pos hlt]
    have h0 : (0:ℚ) ≤ s.worldWidth - s.canvasWidth := by linarith
    exact ⟨rfl, le_max_left _ _, max_le h0 (min_le_right _ _)⟩
  · intro hge
    rw [if_neg (not_lt.mpr hge)]
  · intro hlt
    rw [if_pos hlt]
    have h0 : (0:ℚ) ≤ s.worldHeight - s.canvasHeight := by linarith
    exact ⟨rfl, le_max_left _ _, max_le h0 (min_le_right _ _)⟩
  · intro hge
    rw [if_neg (not_lt.mpr hge)]

/-- A concrete player used to instantiate the camera claim. -/
def cameraDemoPlayer : Player :=
  { playerId := "p1", username := "Tim", avatar := "robot",
    x := 50, y := 1000, facing := .south, animationFrame := 0 }

/-- A concrete joined state used to instantiate the camera claim. -/
def cameraDemoState : GameState :=
  { initState [] [] 800 600 with myPlayer := some cameraDemoPlayer }

/-- Witness for C2: the camera contract instantiated at a concrete
joined state with an 800 by 600 viewport inside the 2048 by 2048
world. -/
theorem camera_recompute_correct_witness :
    cameraDemoState.myPlayer = some cameraDemoPlayer ∧
    CameraSpec cameraDemoState cameraDemoPlayer :=
  ⟨rfl, camera_recompute_correct cameraDemoState cameraDemoPlayer rfl⟩

/-! ### C3 — health stays in [0, 100] -/

theorem processItem_health_bounds (p : Player) (s : GameState) (it : Item)
    (h0 : 0 ≤ s.playerHealth) (h1 : s.playerHealth ≤ 100) :
    0 ≤ (processItem p s it).1.playerHealth ∧ (processItem p s it).1.playerHealth ≤ 100 := by
  unfold processItem collectItem
  split
  · exact ⟨h0, h1⟩
  split
  · exact ⟨le_min (by norm_num) (by omega), min_le_left _ _⟩
  · exact ⟨h0, h1⟩

theorem runItems_health_bounds (p : Player) :
    ∀ (l : List Item) (s : GameState), 0 ≤ s.playerHealth → s.playerHealth ≤ 100 →
      0 ≤ (runItems p s l).1.playerHealth ∧ (runItems p s l).1.playerHealth ≤ 100
  | [], _, h0, h1 => ⟨h0, h1⟩
  | it :: rest, s, h0, h1 => by
      obtain ⟨g0, g1⟩ := processItem_health_bounds p s it h0 h1
      exact runItems_health_bounds p rest (processItem p s it).1 g0 g1

theorem checkItemCollisions_health_bounds (s : GameState)
    (h0 : 0 ≤ s.playerHealth) (h1 : s.playerHealth ≤ 100) :
    0 ≤ (checkItemCollisions s).playerHealth ∧ (checkItemCollisions s).playerHealth ≤ 100 := by
  unfold checkItemCollisions
  cases hm : s.myPlayer with
  | none => exact ⟨h0, h1⟩
  | some p => exact runItems_health_bounds p s.items s h0 h1

theorem processSnake_health_bounds (p : Player) (now : Int) (s : GameState) (sn : Snake)
    (h0 : 0 ≤ s.playerHealth) (h1 : s.playerHealth ≤ 100) :
    0 ≤ (processSnake p now s sn).playerHealth ∧ (processSnake p now s sn).playerHealth ≤ 100 := by
  unfold processSnake takeSnakeDamage
  split
  · exact ⟨le_max_left _ _, max_le (by norm_num) (by omega)⟩
  · exact ⟨h0, h1⟩

theorem snakeFold_health_bounds (p : Player) (now : Int) :
    ∀ (l : List Snake) (s : GameState), 0 ≤ s.playerHealth → s.playerHealth ≤ 100 →
      0 ≤ (l.foldl (processSnake p now) s).playerHealth ∧
      (l.foldl (processSnake p now) s).playerHealth ≤ 100
  | [], _, h0, h1 => ⟨h0, h1⟩
  | sn :: rest, s, h0, h1 => by
      obtain ⟨g0, g1⟩ := processSnake_health_bounds p now s sn h0 h1
      rw [List.foldl_cons]
      exact snakeFold_health_bounds p now rest (processSnake p now s sn) g0 g1

theorem checkSnakeCollisions_health_bounds (now : Int) (s : GameState)
    (h0 : 0 ≤ s.playerHealth) (h1 : s.playerHealth ≤ 100) :
    0 ≤ (checkSnakeCollisions now s).playerHealth ∧
    (checkSnakeCollisions now s).playerHealth ≤ 100 := by
  unfold checkSnakeCollisions
  cases hm : s.myPlayer with
  | none => exact ⟨h0, h1⟩
  | some p =>
      dsimp only
      split
      · exact ⟨h0, h1⟩
      · exact snakeFold_health_bounds p now s.snakes s h0 h1

theorem simTick_health_bounds (now : Int) (s : GameState)
    (h0 : 0 ≤ s.playerHealth) (h1 : s.playerHealth ≤ 100) :
    0 ≤ (simTick now s).playerHealth ∧ (simTick now s).playerHealth ≤ 100 := by
  unfold simTick
  rw [updateFloatingTexts_playerHealth]
  obtain ⟨g0, g1⟩ := checkItemCollisions_health_bounds s h0 h1
  exact checkSnakeCollisions_health_bounds now _ g0 g1

theorem reachable_health_bounds {s : GameState} (h : Reachable s) :
    0 ≤ s.playerHealth ∧ s.playerHealth ≤ 100 := by
  induction h with
  | init itemDraws snakeDraws cw ch =>
      refine ⟨?_, ?_⟩
      · show (0:Int) ≤ 100
        norm_num
      · show (100:Int) ≤ 100
        norm_num
  | msg m hr hwf ih =>
      rw [(handleServerMessage_frame _ m).1]
      exact ih
  | tick now hr ih => exact simTick_health_bounds now _ ih.1 ih.2
  | resize w hgt hr ih =>
      rw [(resizeCanvas_frame _ w hgt).2.2.2.1]
      exact ih

/-- The conjunction claimed by C3 for a state `s` whose health is in
range: a simulation tick keeps health in range, message handling never
touches health, collection adds 5 capped at 100 (staying in range),
hazard damage subtracts 5 floored at 0 (staying in range), and every
reachable state has health in range. -/
def HealthSpec (s : GameState) (m : ServerMessage) (now : Int) : Prop :=
  (0 ≤ (simTick now s).playerHealth ∧ (simTick now s).playerHealth ≤ 100) ∧
  (handleServerMessage s m).playerHealth = s.playerHealth ∧
  (∀ p it, (collectItem p s it).1.playerHealth = min 100 (s.playerHealth + 5) ∧
    0 ≤ (collectItem p s it).1.playerHealth ∧ (collectItem p s it).1.playerHealth ≤ 100) ∧
  (∀ p, (takeSnakeDamage p s).playerHealth = max 0 (s.playerHealth - 5) ∧
    0 ≤ (takeSnakeDamage p s).playerHealth ∧ (takeSnakeDamage p s).playerHealth ≤ 100) ∧
  (∀ s', Reachable s' → 0 ≤ s'.playerHealth ∧ s'.playerHealth ≤ 100)

/-- C3: from any state with health in [0, 100], every health mutation
keeps health in [0, 100]: collection adds 5 capped at 100, hazard damage
subtracts 5 floored at 0, ticks and message handling preserve the range,
and every reachable state satisfies the range. -/
theorem health_always_clamped (s : GameState) (m : ServerMessage) (now : Int)
    (h0 : 0 ≤ s.playerHealth) (h1 : s.playerHealth ≤ 100) : HealthSpec s m now := by
  refine ⟨simTick_health_bounds now s h0 h1, (handleServerMessage_frame s m).1, ?_, ?_, ?_⟩
  · intro p it
    exact ⟨rfl, le_min (by norm_num) (by omega), min_le_left _ _⟩
  · intro p
    exact ⟨rfl, le_max_left _ _, max_le (by norm_num) (by omega)⟩
  · intro s' hs'
    exact reachable_health_bounds hs'

/-- Witness for C3 at the initial state (health 100) with an
unrecognized message and tick time 0. -/
theorem health_always_clamped_witness :
    0 ≤ (initState [] [] 800 600).playerHealth ∧
    (initState [] [] 800 600).playerHealth ≤ 100 ∧
    HealthSpec (initState [] [] 800 600) ServerMessage.unrecognized 0 :=
  ⟨by decide, by decide,
    health_always_clamped (initState [] [] 800 600) ServerMessage.unrecognized 0
      (by decide) (by decide)⟩

/-! ### C9 — floating text aging -/

theorem ageFilter_comm : ∀ l : List FloatingText,
    (l.map ageText).filter (fun t => decide (0 < t.life)) =
      (l.filter (fun t => decide (1 < t.life))).map ageText
  | [] => rfl
  | t :: rest => by
      by_cases h : 1 < t.life
      · have h2 : 0 < (ageText t).life := by
          show 0 < t.life - 1
          omega
        simp [List.filter_cons, h, h2, ageFilter_comm rest]
      · have h2 : ¬ 0 < (ageText t).life := by
          show ¬ 0 < t.life - 1
          omega
        simp [List.filter_cons, h, h2, ageFilter_comm rest]

theorem filter_life_length : ∀ l : List FloatingText, (∀ t ∈ l, 0 < t.life) →
    (l.filter (fun t => decide (1 < t.life))).length +
      l.countP (fun t => decide (t.life = 1)) = l.length
  | [], _ => rfl
  | t :: rest, h => by
      have ht : 0 < t.life := h t (by simp)
      have hrest := filter_life_length rest (fun t2 hm => h t2 (by simp [hm]))
      by_cases h1 : 1 < t.life
      · have hne : ¬ t.life = 1 := by omega
        rw [List.filter_cons_of_pos (by simpa using h1),
          List.countP_cons_of_neg _ _ (by simpa using hne),
          List.length_cons, List.length_cons]
        omega
      · have heq : t.life = 1 := by omega
        rw [List.filter_cons_of_neg (by simpa using h1),
          List.countP_cons_of_pos _ _ (by simpa using heq),
          List.length_cons]
        omega

theorem mem_texts_processItem (p : Player) (s : GameState) (it : Item)
    (h : ∀ t ∈ s.floatingTexts, 0 < t.life) :
    ∀ t ∈ (processItem p s it).1.floatingTexts, 0 < t.life := by
  unfold processItem collectItem
  split
  · exact h
  split
  · dsimp only
    intro t hm
    rcases List.mem_append.mp hm with hm1 | hm1
    · exact h t hm1
    · rcases List.mem_singleton.mp hm1 with rfl
      show (0:Int) < 60
      norm_num
  · exact h

theorem mem_texts_runItems (p : Player) :
    ∀ (l : List Item) (s : GameState), (∀ t ∈ s.floatingTexts, 0 < t.life) →
      ∀ t ∈ (runItems p s l).1.floatingTexts, 0 < t.life
  | [], _, h => h
  | it :: rest, s, h =>
      mem_texts_runItems p rest (processItem p s it).1 (mem_texts_processItem p s it h)

theorem mem_texts_processSnake (p : Player) (now : Int) (s : GameState) (sn : Snake)
    (h : ∀ t ∈ s.floatingTexts, 0 < t.life) :
    ∀ t ∈ (processSnake p now s sn).floatingTexts, 0 < t.life := by
  unfold processSnake takeSnakeDamage
  split
  · dsimp only
    intro t hm
    rcases List.mem_append.mp hm with hm1 | hm1
    · exact h t hm1
    · rcases List.mem_singleton.mp hm1 with rfl
      show (0:Int) < 60
      norm_num
  · exact h

theorem mem_texts_snakeFold (p : Player) (now : Int) :
    ∀ (l : List Snake) (s : GameState), (∀ t ∈ s.floatingTexts, 0 < t.life) →
      ∀ t ∈ (l.foldl (processSnake p now) s).floatingTexts, 0 < t.life
  | [], _, h => h
  | sn :: rest, s, h => by
      rw [List.foldl_cons]
      exact mem_texts_snakeFold p now rest (processSnake p now s sn)
        (mem_texts_processSnake p now s sn h)

theorem mem_texts_simTick (now : Int) (s : GameState) :
    (∀ t ∈ s.floatingTexts, 0 < t.life) →
    ∀ t ∈ (simTick now s).floatingTexts, 0 < t.life := by
  intro h t hm
  have hm2 : t ∈ ((checkSnakeCollisions now (checkItemCollisions s)).floatingTexts.map
      ageText).filter (fun t => decide (0 < t.life)) := hm
  have := List.of_mem_filter hm2
  simpa using this

theorem reachable_texts_positive {s : GameState} (h : Reachable s) :
    ∀ t ∈ s.floatingTexts, 0 < t.life := by
  induction h with
  | init itemDraws snakeDraws cw ch => intro t hm; cases hm
  | msg m hr hwf ih =>
      rw [(handleServerMessage_frame _ m).2.2.2.2.2]
      exact ih
  | tick now hr ih => exact mem_texts_simTick now _ ih
  | resize w hgt hr ih =>
      rw [(resizeCanvas_frame _ w hgt).2.2.2.2.2.2.2.2]
      exact ih

/-- The conjunction claimed by C9: the survivors of an aging step are
exactly the aged (life decremented, position drifted) versions of the
effects whose lifetime did not reach zero, in their original order; the
collection shrinks by exactly the number of effects whose lifetime
reached zero; aging changes exactly the lifetime (minus 1) and vertical
position (plus drift); and every reachable state has only positive
lifetimes, so the hypothesis covers every actual tick. -/
def FloatingAgingSpec (s : GameState) : Prop :=
  (updateFloatingTexts s).floatingTexts =
      (s.floatingTexts.filter (fun t => decide (1 < t.life))).map ageText ∧
  (updateFloatingTexts s).floatingTexts.length +
      s.floatingTexts.countP (fun t => decide (t.life = 1)) = s.floatingTexts.length ∧
  (∀ t : FloatingText, (ageText t).life = t.life - 1 ∧ (ageText t).y = t.y + t.velocityY ∧
    (ageText t).x = t.x ∧ (ageText t).text = t.text ∧ (ageText t).color = t.color ∧
    (ageText t).velocityY = t.velocityY ∧ (ageText t).maxLife = t.maxLife) ∧
  (∀ s' : GameState, Reachable s' → ∀ t ∈ s'.floatingTexts, 0 < t.life)

/-- C9: on a floating-text aging tick from a state whose effects all
have positive lifetime (an invariant of every reachable state, included
in the conclusion), every effect's lifetime decrements by exactly 1 and
its vertical position shifts by its drift velocity; exactly the effects
whose lifetime reaches zero are dropped, the collection size decreases
by exactly their count, and survivors keep their relative order. -/
theorem floating_text_aging_correct (s : GameState)
    (hpos : ∀ t ∈ s.floatingTexts, 0 < t.life) : FloatingAgingSpec s := by
  refine ⟨?_, ?_, ?_, ?_⟩
  · show (s.floatingTexts.map ageText).filter (fun t => decide (0 < t.life)) = _
    exact ageFilter_comm s.floatingTexts
  · show ((s.floatingTexts.map ageText).filter (fun t => decide (0 < t.life))).length + _ = _
    rw [ageFilter_comm s.floatingTexts, List.length_map]
    exact filter_life_length s.floatingTexts hpos
  · intro t
    exact ⟨rfl, rfl, rfl, rfl, rfl, rfl, rfl⟩
  · intro s' hs'
    exact reachable_texts_positive hs'

/-- A concrete floating-text list: one effect about to expire, one
fresh. -/
def agingDemoState : GameState :=
  { initState [] [] 800 600 with
      floatingTexts :=
        [{ x := 10, y := 20, text := "-5", color := "#FF0000",
           life := 1, maxLife := 60, velocityY := -2 },
         { x := 30, y := 40, text := "+5", color := "#00FF00",
           life := 60, maxLife := 60, velocityY := -2 }] }

/-- Witness for C9 at a concrete two-effect state. -/
theorem floating_text_aging_correct_witness :
    (∀ t ∈ agingDemoState.floatingTexts, 0 < t.life) ∧ FloatingAgingSpec agingDemoState :=
  ⟨by decide, floating_text_aging_correct agingDemoState (by decide)⟩

/-! ### C8 — players_moved deltas: unknown ids are no-ops, known ids
merge only the supplied fields -/

theorem jsLookup_upsert_self {α : Type} :
    ∀ (l : List (String × α)) (k : String) (v : α), jsLookup (jsUpsert l k v) k = some v
  | [], k, v => by simp [jsUpsert, jsLookup]
  | (k', v') :: rest, k, v => by
      by_cases h : k' = k
      · simp [jsUpsert, jsLookup, h]
      · simp [jsUpsert, jsLookup, h, jsLookup_upsert_self rest k v]

theorem jsLookup_upsert_ne {α : Type} :
    ∀ (l : List (String × α)) (k k2 : String) (v : α), k2 ≠ k →
      jsLookup (jsUpsert l k v) k2 = jsLookup l k2
  | [], k, k2, v, hne => by simp [jsUpsert, jsLookup, Ne.symm hne]
  | (k', v') :: rest, k, k2, v, hne => by
      by_cases h : k' = k
      · subst h
        simp [jsUpsert, jsLookup, Ne.symm hne]
      · by_cases h2 : k' = k2
        · simp [jsUpsert, jsLookup, h, h2, hne]
        · simp [jsUpsert, jsLookup, h, h2, jsLookup_upsert_ne rest k k2 v hne]

theorem jsLookup_delete_ne {α : Type} :
    ∀ (l : List (String × α)) (k k2 : String), k2 ≠ k →
      jsLookup (jsDelete l k) k2 = jsLookup l k2
  | [], k, k2, hne => rfl
  | (k', v') :: rest, k, k2, hne => by
      by_cases h : k' = k
      · subst h
        simp [jsDelete, jsLookup, Ne.symm hne, jsLookup_delete_ne rest k' k2 hne]
      · by_cases h2 : k' = k2
        · simp [jsDelete, jsLookup, h, h2, hne]
        · simp [jsDelete, jsLookup, h, h2, jsLookup_delete_ne rest k k2 hne]

theorem jsLookup_delete_self {α : Type} :
    ∀ (l : List (String × α)) (k : String), jsLookup (jsDelete l k) k = none
  | [], k => rfl
  | (k', v') :: rest, k => by
      by_cases h : k' = k
      · simp [jsDelete, jsLookup, h, jsLookup_delete_self rest k]
      · simp [jsDelete, jsLookup, h, jsLookup_delete_self rest k]

theorem moveFold_unknown_noop :
    ∀ (ds : List (String × PlayerDelta)) (s : GameState),
      (∀ pd ∈ ds, jsLookup s.players pd.1 = none) →
      ds.foldl (fun st pd => applyOneMove st pd.1 pd.2) s = s
  | [], _, _ => rfl
  | pd :: rest, s, h => by
      have h1 : applyOneMove s pd.1 pd.2 = s := by
        have hl := h pd (by simp)
        simp [applyOneMove, hl]
      rw [List.foldl_cons, h1]
      exact moveFold_unknown_noop rest s (fun pd2 hm => h pd2 (by simp [hm]))

/-- The conjunction claimed by C8: a delta for an unknown id leaves the
state unchanged (total functions: no fault is possible), a batch of only
unknown ids leaves the state unchanged, a delta for a known id stores
exactly the merged record and touches no other id, and the merge
overwrites exactly the supplied fields. -/
def MovedDeltaSpec (s : GameState) (pid : String) (d : PlayerDelta)
    (ds : List (String × PlayerDelta)) : Prop :=
  (jsLookup s.players pid = none → applyOneMove s pid d = s) ∧
  ((∀ pd ∈ ds, jsLookup s.players pd.1 = none) →
      handleServerMessage s (ServerMessage.playersMoved ds) = s) ∧
  (∀ old, jsLookup s.players pid = some old →
      jsLookup (applyOneMove s pid d).players pid = some (mergePlayer old d) ∧
      ∀ pid2, pid2 ≠ pid →
        jsLookup (applyOneMove s pid d).players pid2 = jsLookup s.players pid2) ∧
  (∀ old : Player,
      (d.x = none → (mergePlayer old d).x = old.x) ∧
      (∀ v, d.x = some v → (mergePlayer old d).x = v) ∧
      (d.y = none → (mergePlayer old d).y = old.y) ∧
      (∀ v, d.y = some v → (mergePlayer old d).y = v) ∧
      (d.facing = none → (mergePlayer old d).facing = old.facing) ∧
      (∀ v, d.facing = some v → (mergePlayer old d).facing = v) ∧
      (d.animationFrame = none → (mergePlayer old d).animationFrame = old.animationFrame) ∧
      (∀ v, d.animationFrame = some v → (mergePlayer old d).animationFrame = v) ∧
      (mergePlayer old d).playerId = old.playerId ∧
      (mergePlayer old d).username = old.username ∧
      (mergePlayer old d).avatar = old.avatar)

/-- C8: a `players_moved` delta for an id not in the player collection
changes nothing and raises no fault; for a present id exactly the
supplied fields are overwritten, every unsupplied field and every other
player keep their previous values. -/
theorem players_moved_delta_tolerant (s : GameState) (pid : String) (d : PlayerDelta)
    (ds : List (String × PlayerDelta)) : MovedDeltaSpec s pid d ds := by
  refine ⟨?_, ?_, ?_, ?_⟩
  · intro h
    simp [applyOneMove, h]
  · intro h
    exact moveFold_unknown_noop ds s h
  · intro old h
    have hmain : (applyOneMove s pid d).players = jsUpsert s.players pid (mergePlayer old d) := by
      unfold applyOneMove
      rw [h]
      dsimp only
      split
      · rw [updateCamera_players]
      · rfl
    constructor
    · rw [hmain]
      exact jsLookup_upsert_self s.players pid (mergePlayer old d)
    · intro pid2 hne
      rw [hmain]
      exact jsLookup_upsert_ne s.players pid pid2 (mergePlayer old d) hne
  · intro old
    refine ⟨?_, ?_, ?_, ?_, ?_, ?_, ?_, ?_, rfl, rfl, rfl⟩ <;> intro h
    · simp [mergePlayer, h]
    · intro h2
      simp [mergePlayer, h2]
    · simp [mergePlayer, h]
    · intro h2
      simp [mergePlayer, h2]
    · simp [mergePlayer, h]
    · intro h2
      simp [mergePlayer, h2]
    · simp [mergePlayer, h]
    · intro h2
      simp [mergePlayer, h2]

/-- A concrete one-player state for the C8 witness. -/
def movedDemoState : GameState :=
  { initState [] [] 800 600 with
      players := [("a", cameraDemoPlayer)] }

/-- A concrete delta supplying only x for the C8 witness. -/
def movedDemoDelta : PlayerDelta :=
  { x := some 77, y := none, facing := none, animationFrame := none }

/-- Witness for C8: the delta contract instantiated at a one-player
state, an unknown id "ghost", and a batch containing only that unknown
id. -/
theorem players_moved_delta_tolerant_witness :
    MovedDeltaSpec movedDemoState "ghost" movedDemoDelta [("ghost", movedDemoDelta)] :=
  players_moved_delta_tolerant movedDemoState "ghost" movedDemoDelta [("ghost", movedDemoDelta)]

/-! ### C4 — pickup is idempotent per item, items are never removed -/

theorem processItem_collected_noop (p : Player) (s : GameState) (it : Item)
    (hc : it.collected = true) : processItem p s it = (s, it) := by
  simp [processItem, hc]

theorem runItems_length (p : Player) :
    ∀ (l : List Item) (s : GameState), (runItems p s l).2.length = l.length
  | [], _ => rfl
  | it :: rest, s => by
      show ((processItem p s it).2 :: (runItems p (processItem p s it).1 rest).2).length =
        rest.length + 1
      rw [List.length_cons, runItems_length p rest (processItem p s it).1]

theorem runItems_collected_stable (p : Player) :
    ∀ (l : List Item) (s : GameState) (i : Nat) (it : Item),
      l.get? i = some it → it.collected = true → (runItems p s l).2.get? i = some it
  | [], _, i, it, h, _ => by cases i <;> cases h
  | it0 :: rest, s, 0, it, h, hc => by
      have he : it0 = it := by simpa using h
      subst he
      show ((processItem p s it0).2 :: (runItems p (processItem p s it0).1 rest).2).get? 0 =
        some it0
      simp [processItem, hc]
  | it0 :: rest, s, Nat.succ i, it, h, hc => by
      show ((processItem p s it0).2 :: (runItems p (processItem p s it0).1 rest).2).get? (i + 1) =
        some it
      simpa using
        runItems_collected_stable p rest (processItem p s it0).1 i it (by simpa using h) hc

theorem checkItemCollisions_length (s : GameState) :
    (checkItemCollisions s).items.length = s.items.length := by
  unfold checkItemCollisions
  cases hm : s.myPlayer with
  | none => rfl
  | some p => exact runItems_length p s.items s

theorem checkItemCollisions_collected_stable (s : GameState) (i : Nat) (it : Item)
    (h : s.items.get? i = some it) (hc : it.collected = true) :
    (checkItemCollisions s).items.get? i = some it := by
  unfold checkItemCollisions
  cases hm : s.myPlayer with
  | none => exact h
  | some p => exact runItems_collected_stable p s.items s i it h hc

/-- The conjunction claimed by C4: processing an already-collected item
changes nothing at all (no inventory increment, no heal, no floating
text — regardless of overlap); a simulation tick never changes the
number of items (items are never removed, only flagged); an
already-collected item survives any later tick entirely unchanged; and
message handling never touches the item collection. -/
def ItemIdempotenceSpec : Prop :=
  (∀ (p : Player) (s : GameState) (it : Item), it.collected = true →
      processItem p s it = (s, it)) ∧
  (∀ (now : Int) (s : GameState), (simTick now s).items.length = s.items.length) ∧
  (∀ (now : Int) (s : GameState) (i : Nat) (it : Item),
      s.items.get? i = some it → it.collected = true →
      (simTick now s).items.get? i = some it) ∧
  (∀ (s : GameState) (m : ServerMessage), (handleServerMessage s m).items = s.items)

/-- C4: once an item's collected flag is true, later simulation ticks
produce no further pickup for it — no inventory increment, heal or
floating text is attributable to it and its record is unchanged — and
the item collection never shrinks. -/
theorem item_pickup_idempotent : ItemIdempotenceSpec := by
  refine ⟨processItem_collected_noop, ?_, ?_, ?_⟩
  · intro now s
    rw [simTick_items]
    exact checkItemCollisions_length s
  · intro now s i it h hc
    rw [simTick_items]
    exact checkItemCollisions_collected_stable s i it h hc
  · intro s m
    exact (handleServerMessage_frame s m).2.1

/-- A collected item sitting exactly on the local player, for the C4
witness: even with full overlap, processing it changes nothing. -/
def collectedDemoItem : Item :=
  { id := 0, type := .apple, x := 90, y := 90, collected := true }

/-- Witness for C4: the already-collected item on top of the player is
untouched by an item pass, and a tick on a one-item state keeps the item
count at 1. -/
theorem item_pickup_idempotent_witness :
    collectedDemoItem.collected = true ∧
    processItem cameraDemoPlayer (initState [] [] 800 600) collectedDemoItem =
      (initState [] [] 800 600, collectedDemoItem) :=
  ⟨rfl, item_pickup_idempotent.1 cameraDemoPlayer (initState [] [] 800 600)
    collectedDemoItem rfl⟩

/-! ### C5 — the pickup threshold and the spec's concrete scenario -/

/-- The player of the spec's pickup scenario, at (100, 100). -/
def pickupDemoPlayer : Player :=
  { playerId := "p1", username := "Tim", avatar := "robot",
    x := 100, y := 100, facing := .south, animationFrame := 0 }

/-- The item of the spec's pickup scenario: position (105, 105), size 20
(radius 10), uncollected. -/
def pickupDemoItem : Item :=
  { id := 0, type := .banana, x := 105, y := 105, collected := false }

/-- C5 counterexample: in the code the item's center is its position
plus its radius, i.e. (115, 115), so the player at (100, 100) is at
squared distance 450 from it (distance ≈ 21.21, in particular at least
8), refuting the claimed distance ≈ 7.07 (squared ≈ 50, below 64). -/
theorem pickup_scenario_distance_counterexample :
    distSq pickupDemoPlayer.x pickupDemoPlayer.y
        (itemCenterX pickupDemoItem) (itemCenterY pickupDemoItem) = 450 ∧
    ¬ distSq pickupDemoPlayer.x pickupDemoPlayer.y
        (itemCenterX pickupDemoItem) (itemCenterY pickupDemoItem) < 64 := by
  constructor <;>
    norm_num [distSq, itemCenterX, itemCenterY, pickupDemoPlayer, pickupDemoItem, itemSize]

/-- The conjunction claimed by C5 as amended: the pickup test fires
exactly when the squared distance from the player center to the item
center (item position plus item radius) is below the squared threshold
`(playerRadius + itemRadius) - 0.1 * itemRadius` (= 24, squared 576 for
size-20 items); an uncollected item is registered as picked up exactly
when that test fires; and in the scenario (player (100,100), item
(105,105), size 20) the squared distance is 450 < 576, so the pickup
succeeds, the banana counter increments from the given inventory, and
health increases by 5 capped at 100. -/
def PickupThresholdSpec (s : GameState) : Prop :=
  (∀ (p : Player) (it : Item), itemHit p it = true ↔
      distSq p.x p.y (itemCenterX it) (itemCenterY it) <
        ((playerRadius + itemSize / 2) - (itemSize / 2) * (1 / 10)) ^ 2) ∧
  ((playerRadius + itemSize / 2) - (itemSize / 2) * (1 / 10) = 24 ∧
    ((playerRadius + itemSize / 2) - (itemSize / 2) * (1 / 10)) ^ 2 = 576) ∧
  (∀ (p : Player) (st : GameState) (it : Item), it.collected = false →
      (processItem p st it).2.collected = itemHit p it) ∧
  (distSq pickupDemoPlayer.x pickupDemoPlayer.y
      (itemCenterX pickupDemoItem) (itemCenterY pickupDemoItem) = 450 ∧
    itemHit pickupDemoPlayer pickupDemoItem = true) ∧
  ((processItem pickupDemoPlayer s pickupDemoItem).2.collected = true ∧
    (processItem pickupDemoPlayer s pickupDemoItem).1.inventory.bananas =
      s.inventory.bananas + 1 ∧
    (processItem pickupDemoPlayer s pickupDemoItem).1.playerHealth =
      min 100 (s.playerHealth + 5))

/-- C5 as amended: pickup fires exactly below the threshold
`(playerRadius + itemRadius) - 0.1 * itemRadius` measured to the item
center (position + radius); the scenario's distance is √450 ≈ 21.21
(not ≈ 7.07), still below 24, so the pickup succeeds, the banana
counter increments and health heals 5 capped at 100. -/
theorem item_pickup_threshold_correct (s : GameState) : PickupThresholdSpec s := by
  have hhit : itemHit pickupDemoPlayer pickupDemoItem = true := by
    have : distSq pickupDemoPlayer.x pickupDemoPlayer.y
        (itemCenterX pickupDemoItem) (itemCenterY pickupDemoItem) <
        ((playerRadius + itemSize / 2) - (itemSize / 2) * (1 / 10)) ^ 2 := by
      norm_num [distSq, itemCenterX, itemCenterY, pickupDemoPlayer, pickupDemoItem,
        itemSize, playerRadius]
    simpa [itemHit] using this
  refine ⟨?_, ⟨?_, ?_⟩, ?_, ⟨?_, hhit⟩, ?_, ?_, ?_⟩
  · intro p it
    simp [itemHit]
  · norm_num [playerRadius, itemSize]
  · norm_num [playerRadius, itemSize]
  · intro p st it hc
    by_cases hh : itemHit p it
    · simp [processItem, collectItem, hc, hh]
    · simp only [Bool.not_eq_true] at hh
      simp [processItem, hc, hh]
  · norm_num [distSq, itemCenterX, itemCenterY, pickupDemoPlayer, pickupDemoItem, itemSize]
  · have hcol : pickupDemoItem.collected = false := rfl
    simp [processItem, collectItem, hcol, hhit]
  · have hcol : pickupDemoItem.collected = false := rfl
    have htype : pickupDemoItem.type = ItemType.banana := rfl
    simp [processItem, collectItem, hcol, hhit, htype, incInventory]
  · have hcol : pickupDemoItem.collected = false := rfl
    simp [processItem, collectItem, hcol, hhit]

/-- Witness for C5 (amended) at the initial state: empty inventory
becomes one banana and health is capped at 100. -/
theorem item_pickup_threshold_correct_witness :
    PickupThresholdSpec (initState [] [] 800 600) :=
  item_pickup_threshold_correct (initState [] [] 800 600)

/-! ### C1 — the hazard-damage cooldown -/

theorem updateFloatingTexts_lastSnakeDamage (s : GameState) :
    (updateFloatingTexts s).lastSnakeDamage = s.lastSnakeDamage := rfl

theorem processSnake_last_or (p : Player) (now : Int) (s : GameState) (sn : Snake) :
    processSnake p now s sn = s ∨ (processSnake p now s sn).lastSnakeDamage = now := by
  unfold processSnake
  split
  · right; rfl
  · left; rfl

theorem processSnake_keeps_now (p : Player) (now : Int) (s : GameState) (sn : Snake)
    (h : s.lastSnakeDamage = now) : (processSnake p now s sn).lastSnakeDamage = now := by
  unfold processSnake
  split
  · rfl
  · exact h

theorem snakeFold_keeps_now (p : Player) (now : Int) :
    ∀ (l : List Snake) (s : GameState), s.lastSnakeDamage = now →
      (l.foldl (processSnake p now) s).lastSnakeDamage = now
  | [], _, h => h
  | sn :: rest, s, h => by
      rw [List.foldl_cons]
      exact snakeFold_keeps_now p now rest _ (processSnake_keeps_now p now s sn h)

theorem snakeFold_last (p : Player) (now : Int) :
    ∀ (l : List Snake) (s : GameState),
      l.foldl (processSnake p now) s = s ∨
      (l.foldl (processSnake p now) s).lastSnakeDamage = now
  | [], _ => Or.inl rfl
  | sn :: rest, s => by
      rw [List.foldl_cons]
      rcases processSnake_last_or p now s sn with h | h
      · rw [h]
        exact snakeFold_last p now rest s
      · exact Or.inr (snakeFold_keeps_now p now rest _ h)

theorem checkSnake_eq_or_stamp (now : Int) (s : GameState) :
    checkSnakeCollisions now s = s ∨ (checkSnakeCollisions now s).lastSnakeDamage = now := by
  unfold checkSnakeCollisions
  cases hm : s.myPlayer with
  | none => exact Or.inl rfl
  | some p =>
      dsimp only
      split
      · exact Or.inl rfl
      · exact snakeFold_last p now s.snakes s

theorem checkSnake_cooldown_noop (now : Int) (s : GameState)
    (h : now - s.lastSnakeDamage < 1000) : checkSnakeCollisions now s = s := by
  unfold checkSnakeCollisions
  cases hm : s.myPlayer with
  | none => rfl
  | some p =>
      dsimp only
      rw [if_pos h]

theorem checkSnake_run (now : Int) (s : GameState) (p : Player) (hp : s.myPlayer = some p)
    (hcd : ¬ now - s.lastSnakeDamage < 1000) :
    checkSnakeCollisions now s = s.snakes.foldl (processSnake p now) s := by
  unfold checkSnakeCollisions
  rw [hp]
  dsimp only
  rw [if_neg hcd]

/-- The conjunction claimed by C1 as amended, for a tick at time `t`
that applied hazard damage (`checkSnakeCollisions t s ≠ s`) and a later
state `s2` carrying the resulting cooldown stamp: any hazard check
strictly within 1000 ms of `t` leaves the state completely unchanged,
the damaging tick stamped the cooldown with `t`, and no other operation
(message handling, item pass, text aging) touches the stamp — so across
ticks at most one damaging tick fits in a 1000 ms window. -/
def HazardCooldownSpec (s s2 : GameState) (t t2 : Int) : Prop :=
  (checkSnakeCollisions t s).lastSnakeDamage = t ∧
  checkSnakeCollisions t2 s2 = s2 ∧
  (∀ (s3 : GameState) (m : ServerMessage),
      (handleServerMessage s3 m).lastSnakeDamage = s3.lastSnakeDamage) ∧
  (∀ s3 : GameState, (checkItemCollisions s3).lastSnakeDamage = s3.lastSnakeDamage) ∧
  (∀ s3 : GameState, (updateFloatingTexts s3).lastSnakeDamage = s3.lastSnakeDamage)

/-- C1 as amended: across ticks the 1000 ms cooldown admits at most one
damaging tick per window — once a tick at time `t` applies any hazard
damage, every hazard check at `t2` with `t ≤ t2 < t + 1000` (on any
state carrying the stamp, which nothing but the hazard check modifies)
is a complete no-op.  Within the single damaging tick, however, each
overlapping hazard applies its own damage event (see the
counterexample). -/
theorem hazard_cooldown_one_damaging_tick (s s2 : GameState) (t t2 : Int)
    (hdmg : checkSnakeCollisions t s ≠ s)
    (hstamp : s2.lastSnakeDamage = (checkSnakeCollisions t s).lastSnakeDamage)
    (hle : t ≤ t2) (hlt : t2 < t + 1000) : HazardCooldownSpec s s2 t t2 := by
  have h1 : (checkSnakeCollisions t s).lastSnakeDamage = t := by
    rcases checkSnake_eq_or_stamp t s with h | h
    · exact absurd h hdmg
    · exact h
  refine ⟨h1, ?_, ?_, ?_, ?_⟩
  · apply checkSnake_cooldown_noop
    rw [hstamp, h1]
    omega
  · intro s3 m
    exact (handleServerMessage_frame s3 m).2.2.2.2.1
  · intro s3
    exact checkItemCollisions_lastSnakeDamage s3
  · intro s3
    exact updateFloatingTexts_lastSnakeDamage s3

/-- The player of the hazard scenario, at (100, 100). -/
def hazardDemoPlayer : Player :=
  { playerId := "p1", username := "Tim", avatar := "robot",
    x := 100, y := 100, facing := .south, animationFrame := 0 }

/-- A snake whose 15 by 35 footprint is centered exactly on (100, 100). -/
def hazardDemoSnake0 : Snake := { id := 0, x := 185 / 2, y := 165 / 2 }

/-- A second snake at the same spot, overlapping the player
simultaneously. -/
def hazardDemoSnake1 : Snake := { id := 1, x := 185 / 2, y := 165 / 2 }

/-- A joined state with two snakes on top of the player, full health, no
floating texts and an expired cooldown (stamp 0). -/
def hazardDemoState : GameState :=
  { initState [] [] 800 600 with
      myPlayer := some hazardDemoPlayer,
      snakes := [hazardDemoSnake0, hazardDemoSnake1] }

theorem hazardDemo_hit0 : snakeHit hazardDemoPlayer hazardDemoSnake0 = true := by
  have hmax : max snakeWidth snakeHeight = 35 := by
    rw [show snakeWidth = 15 from rfl, show snakeHeight = 35 from rfl]
    exact max_eq_right (by norm_num)
  have hlt : distSq hazardDemoPlayer.x hazardDemoPlayer.y
      (hazardDemoSnake0.x + snakeWidth / 2) (hazardDemoSnake0.y + snakeHeight / 2) <
      (playerRadius + max snakeWidth snakeHeight / 2) ^ 2 := by
    rw [hmax]
    norm_num [distSq, hazardDemoPlayer, hazardDemoSnake0, snakeWidth, snakeHeight, playerRadius]
  simpa [snakeHit] using hlt

theorem hazardDemo_hit1 : snakeHit hazardDemoPlayer hazardDemoSnake1 = true := by
  have hmax : max snakeWidth snakeHeight = 35 := by
    rw [show snakeWidth = 15 from rfl, show snakeHeight = 35 from rfl]
    exact max_eq_right (by norm_num)
  have hlt : distSq hazardDemoPlayer.x hazardDemoPlayer.y
      (hazardDemoSnake1.x + snakeWidth / 2) (hazardDemoSnake1.y + snakeHeight / 2) <
      (playerRadius + max snakeWidth snakeHeight / 2) ^ 2 := by
    rw [hmax]
    norm_num [distSq, hazardDemoPlayer, hazardDemoSnake1, snakeWidth, snakeHeight, playerRadius]
  simpa [snakeHit] using hlt

theorem hazardDemo_run : checkSnakeCollisions 5000 hazardDemoState =
    processSnake hazardDemoPlayer 5000
      (processSnake hazardDemoPlayer 5000 hazardDemoState hazardDemoSnake0)
      hazardDemoSnake1 := by
  have hcd : ¬ (5000:Int) - hazardDemoState.lastSnakeDamage < 1000 := by
    show ¬ (5000:Int) - 0 < 1000
    norm_num
  rw [checkSnake_run 5000 hazardDemoState hazardDemoPlayer rfl hcd]
  show List.foldl (processSnake hazardDemoPlayer 5000) hazardDemoState
    [hazardDemoSnake0, hazardDemoSnake1] = _
  rw [List.foldl_cons, List.foldl_cons, List.foldl_nil]

theorem hazardDemo_health : (checkSnakeCollisions 5000 hazardDemoState).playerHealth = 90 := by
  rw [hazardDemo_run]
  unfold processSnake
  rw [if_pos hazardDemo_hit0, if_pos hazardDemo_hit1]
  show max 0 (max 0 (hazardDemoState.playerHealth - 5) - 5) = 90
  rw [show hazardDemoState.playerHealth = 100 from rfl]
  decide

theorem hazardDemo_texts :
    (checkSnakeCollisions 5000 hazardDemoState).floatingTexts.length = 2 := by
  rw [hazardDemo_run]
  unfold processSnake
  rw [if_pos hazardDemo_hit0, if_pos hazardDemo_hit1]
  show ((hazardDemoState.floatingTexts ++ [_]) ++ [_]).length = 2
  rw [show hazardDemoState.floatingTexts = [] from rfl]
  rfl

/-- C1 counterexample: with two snakes overlapping the local player in
one tick (cooldown expired), that single tick applies hazard damage
twice — health drops from 100 to 90 and two "-5" floating texts are
spawned — refuting "at most one hazard-damage event per 1000 ms window
regardless of how many hazards are overlapped simultaneously". -/
theorem hazard_double_damage_counterexample :
    hazardDemoState.playerHealth = 100 ∧
    hazardDemoState.floatingTexts.length = 0 ∧
    (checkSnakeCollisions 5000 hazardDemoState).playerHealth = 90 ∧
    (checkSnakeCollisions 5000 hazardDemoState).floatingTexts.length = 2 :=
  ⟨rfl, rfl, hazardDemo_health, hazardDemo_texts⟩

/-- Witness for C1 (amended): after the damaging tick at time 5000, a
hazard check at 5999 on the resulting state changes nothing. -/
theorem hazard_cooldown_one_damaging_tick_witness :
    HazardCooldownSpec hazardDemoState (checkSnakeCollisions 5000 hazardDemoState) 5000 5999 :=
  hazard_cooldown_one_damaging_tick hazardDemoState
    (checkSnakeCollisions 5000 hazardDemoState) 5000 5999
    (fun h => by
      have h2 := congrArg GameState.playerHealth h
      rw [hazardDemo_health, show hazardDemoState.playerHealth = 100 from rfl] at h2
      exact absurd h2 (by decide))
    rfl (by decide) (by decide)

/-! ### C6 — before a join, a simulation tick changes nothing -/

theorem applyOneMove_myPlayer_of_none (s : GameState) (pid : String) (d : PlayerDelta)
    (h : s.playerId = none) : (applyOneMove s pid d).myPlayer = s.myPlayer := by
  unfold applyOneMove
  cases hl : jsLookup s.players pid with
  | none => rfl
  | some old =>
      dsimp only
      rw [if_neg (show ¬s.playerId = some pid by simp [h])]

theorem moveFold_prejoin :
    ∀ (ds : List (String × PlayerDelta)) (s : GameState), s.playerId = none →
      (ds.foldl (fun st pd => applyOneMove st pd.1 pd.2) s).myPlayer = s.myPlayer ∧
      (ds.foldl (fun st pd => applyOneMove st pd.1 pd.2) s).playerId = none
  | [], _, h => ⟨rfl, h⟩
  | pd :: rest, s, h => by
      rw [List.foldl_cons]
      have h2 : (applyOneMove s pd.1 pd.2).playerId = none := by
        rw [applyOneMove_playerId]
        exact h
      obtain ⟨g1, g2⟩ := moveFold_prejoin rest _ h2
      refine ⟨?_, g2⟩
      rw [g1, applyOneMove_myPlayer_of_none s pd.1 pd.2 h]

theorem checkItemCollisions_of_noPlayer (s : GameState) (h : s.myPlayer = none) :
    checkItemCollisions s = s := by
  unfold checkItemCollisions
  rw [h]

theorem checkSnakeCollisions_of_noPlayer (now : Int) (s : GameState) (h : s.myPlayer = none) :
    checkSnakeCollisions now s = s := by
  unfold checkSnakeCollisions
  rw [h]

theorem updateFloatingTexts_of_empty (s : GameState) (h : s.floatingTexts = []) :
    updateFloatingTexts s = s := by
  have h2 : (s.floatingTexts.map ageText).filter (fun t => decide (0 < t.life)) =
      s.floatingTexts := by
    rw [h]
    rfl
  show { s with floatingTexts :=
    (s.floatingTexts.map ageText).filter (fun t => decide (0 < t.life)) } = s
  rw [h2]

theorem noJoin_invariant {s : GameState} (h : ReachableNoJoin s) :
    s.playerId = none ∧ s.myPlayer = none ∧ s.floatingTexts = [] := by
  induction h with
  | init itemDraws snakeDraws cw ch => exact ⟨rfl, rfl, rfl⟩
  | @msg s0 m hr hnj ih =>
      obtain ⟨h1, h2, h3⟩ := ih
      have hfr := handleServerMessage_frame s0 m
      cases m with
      | joinSuccess pid ps avs => simp [isJoinSuccess] at hnj
      | joinFailure err => exact ⟨h1, h2, hfr.2.2.2.2.2 ▸ h3⟩
      | playerJoined p av => exact ⟨h1, h2, hfr.2.2.2.2.2 ▸ h3⟩
      | playersMoved ds =>
          obtain ⟨g1, g2⟩ := moveFold_prejoin ds s0 h1
          exact ⟨g2, g1 ▸ h2, hfr.2.2.2.2.2 ▸ h3⟩
      | playerLeft pid => exact ⟨h1, h2, hfr.2.2.2.2.2 ▸ h3⟩
      | unrecognized => exact ⟨h1, h2, hfr.2.2.2.2.2 ▸ h3⟩
  | @tick s0 now hr ih =>
      obtain ⟨h1, h2, h3⟩ := ih
      have e : simTick now s0 = s0 := by
        unfold simTick
        rw [checkItemCollisions_of_noPlayer s0 h2,
          checkSnakeCollisions_of_noPlayer now s0 h2, updateFloatingTexts_of_empty s0 h3]
      rw [e]
      exact ⟨h1, h2, h3⟩
  | @resize s0 w hgt hr ih =>
      obtain ⟨h1, h2, h3⟩ := ih
      have hfr := resizeCanvas_frame s0 w hgt
      exact ⟨hfr.1 ▸ h1, hfr.2.1 ▸ h2, hfr.2.2.2.2.2.2.2.2 ▸ h3⟩

/-- The conjunction claimed by C6 for a pre-join state: the local player
is unset, the item pass and the hazard pass return the state untouched,
and a whole simulation tick is the identity (the floating-text aging
step runs unguarded, but the pre-join floating-text collection is
provably empty, so no item, health, inventory, cooldown or
floating-text state changes). -/
def PreJoinSkipSpec (s : GameState) (now : Int) : Prop :=
  s.myPlayer = none ∧
  checkItemCollisions s = s ∧
  checkSnakeCollisions now s = s ∧
  simTick now s = s

/-- C6: in every state reachable without a successful join
acknowledgment ("not yet joined"), the local player is unset and a
simulation tick changes no state at all: the item and hazard checks are
skipped by their guards, and floating-text aging — which has no such
guard — is a no-op because the collection is still empty. -/
theorem prejoin_tick_noop (s : GameState) (now : Int) (h : ReachableNoJoin s) :
    PreJoinSkipSpec s now := by
  obtain ⟨h1, h2, h3⟩ := noJoin_invariant h
  have e1 := checkItemCollisions_of_noPlayer s h2
  have e2 := checkSnakeCollisions_of_noPlayer now s h2
  have e3 := updateFloatingTexts_of_empty s h3
  refine ⟨h2, e1, e2, ?_⟩
  unfold simTick
  rw [e1, e2, e3]

/-- Witness for C6 at the initial state and tick time 0. -/
theorem prejoin_tick_noop_witness :
    PreJoinSkipSpec (initState [] [] 800 600) 0 :=
  prejoin_tick_noop (initState [] [] 800 600) 0 (ReachableNoJoin.init [] [] 800 600)

/-! ### C7 — one player per id and the local-reference aliasing -/

theorem jsUpsert_keys {α : Type} :
    ∀ (l : List (String × α)) (k : String) (v : α),
      (jsUpsert l k v).map Prod.fst =
        if k ∈ l.map Prod.fst then l.map Prod.fst else l.map Prod.fst ++ [k]
  | [], k, v => by simp [jsUpsert]
  | (k', v') :: rest, k, v => by
      by_cases h : k' = k
      · subst h
        simp [jsUpsert]
      · simp only [jsUpsert, if_neg h, List.map_cons]
        rw [jsUpsert_keys rest k v]
        by_cases h2 : k ∈ rest.map Prod.fst
        · simp [h2, List.mem_cons, Ne.symm h]
        · simp [h2, List.mem_cons, Ne.symm h]

theorem jsUpsert_keys_nodup {α : Type} (l : List (String × α)) (k : String) (v : α)
    (h : (l.map Prod.fst).Nodup) : ((jsUpsert l k v).map Prod.fst).Nodup := by
  rw [jsUpsert_keys]
  by_cases h2 : k ∈ l.map Prod.fst
  · rwa [if_pos h2]
  · rw [if_neg h2]
    simp [List.nodup_append, h, h2]

theorem jsDelete_keys_mem {α : Type} :
    ∀ (l : List (String × α)) (k x : String),
      x ∈ (jsDelete l k).map Prod.fst → x ∈ l.map Prod.fst
  | [], _, _, h => by cases h
  | (k', v') :: rest, k, x, h => by
      by_cases hk : k' = k
      · simp only [jsDelete, if_pos hk] at h
        exact List.mem_cons_of_mem _ (jsDelete_keys_mem rest k x h)
      · simp only [jsDelete, if_neg hk, List.map_cons, List.mem_cons] at h ⊢
        rcases h with h | h
        · exact Or.inl h
        · exact Or.inr (jsDelete_keys_mem rest k x h)

theorem jsDelete_keys_nodup {α : Type} :
    ∀ (l : List (String × α)) (k : String),
      (l.map Prod.fst).Nodup → ((jsDelete l k).map Prod.fst).Nodup
  | [], _, _ => List.nodup_nil
  | (k', v') :: rest, k, h => by
      rw [List.map_cons, List.nodup_cons] at h
      obtain ⟨hnm, hrest⟩ := h
      by_cases hk : k' = k
      · simp only [jsDelete, if_pos hk]
        exact jsDelete_keys_nodup rest k hrest
      · simp only [jsDelete, if_neg hk, List.map_cons, List.nodup_cons]
        exact ⟨fun hm => hnm (jsDelete_keys_mem rest k k' hm), jsDelete_keys_nodup rest k hrest⟩

/-- The store identity invariant of C7: the player collection holds at
most one entry per id (its keys are pairwise distinct), and whenever a
local player is designated, the local id is set and the entry under it
is exactly the designated record. -/
def StoreInv (s : GameState) : Prop :=
  (s.players.map Prod.fst).Nodup ∧
  ∀ p, s.myPlayer = some p →
    ∃ pid, s.playerId = some pid ∧ jsLookup s.players pid = some p

theorem storeInv_applyOneMove (s : GameState) (pid : String) (d : PlayerDelta)
    (hInv : StoreInv s) : StoreInv (applyOneMove s pid d) := by
  obtain ⟨hnd, hal⟩ := hInv
  unfold applyOneMove
  cases hl : jsLookup s.players pid with
  | none => exact ⟨hnd, hal⟩
  | some old =>
      dsimp only
      by_cases hid : s.playerId = some pid
      · rw [if_pos hid]
        refine ⟨?_, ?_⟩
        · rw [updateCamera_players]
          exact jsUpsert_keys_nodup s.players pid (mergePlayer old d) hnd
        · intro p hp
          rw [updateCamera_myPlayer] at hp
          have hp2 : mergePlayer old d = p := Option.some.inj hp
          refine ⟨pid, ?_, ?_⟩
          · rw [updateCamera_playerId]
            exact hid
          · rw [updateCamera_players]
            rw [← hp2]
            exact jsLookup_upsert_self s.players pid (mergePlayer old d)
      · rw [if_neg hid]
        refine ⟨?_, ?_⟩
        · exact jsUpsert_keys_nodup s.players pid (mergePlayer old d) hnd
        · intro p hp
          obtain ⟨pid0, hpid0, hlk⟩ := hal p hp
          have hne : pid0 ≠ pid := fun he => hid (he ▸ hpid0)
          refine ⟨pid0, hpid0, ?_⟩
          rw [jsLookup_upsert_ne s.players pid pid0 (mergePlayer old d) hne]
          exact hlk

theorem storeInv_moveFold :
    ∀ (ds : List (String × PlayerDelta)) (s : GameState), StoreInv s →
      StoreInv (ds.foldl (fun st pd => applyOneMove st pd.1 pd.2) s)
  | [], _, h => h
  | pd :: rest, s, h => by
      rw [List.foldl_cons]
      exact storeInv_moveFold rest _ (storeInv_applyOneMove s pd.1 pd.2 h)

/-- The server-behavior restriction forced by the counterexample: a
message is acceptable in state `s` when a join acknowledgment carries a
duplicate-free player map (JSON objects cannot repeat keys) and no
`player_joined` / `player_left` targets the current local id (a correct
server never tells a client that the client itself joined or left). -/
def msgOKAt (s : GameState) : ServerMessage → Prop
  | .joinSuccess _ ps _ => (ps.map Prod.fst).Nodup
  | .playerJoined p _ => s.playerId ≠ some p.playerId
  | .playerLeft pid => s.playerId ≠ some pid
  | _ => True

theorem storeInv_step (s : GameState) (m : ServerMessage)
    (hInv : StoreInv s) (hok : msgOKAt s m) : StoreInv (handleServerMessage s m) := by
  obtain ⟨hnd, hal⟩ := hInv
  cases m with
  | joinSuccess pid ps avs =>
      dsimp only [handleServerMessage]
      refine ⟨?_, ?_⟩
      · rw [updateCamera_players]
        exact hok
      · intro p hp
        rw [updateCamera_myPlayer] at hp
        refine ⟨pid, ?_, ?_⟩
        · rw [updateCamera_playerId]
        · rw [updateCamera_players]
          exact hp
  | joinFailure err => exact ⟨hnd, hal⟩
  | playerJoined p av =>
      dsimp only [handleServerMessage]
      refine ⟨?_, ?_⟩
      · exact jsUpsert_keys_nodup s.players p.playerId p hnd
      · intro q hq
        obtain ⟨pid0, hpid0, hlk⟩ := hal q hq
        have hne : pid0 ≠ p.playerId := fun he => hok (by rw [← he]; exact hpid0)
        refine ⟨pid0, hpid0, ?_⟩
        rw [jsLookup_upsert_ne s.players p.playerId pid0 p hne]
        exact hlk
  | playersMoved ds => exact storeInv_moveFold ds s ⟨hnd, hal⟩
  | playerLeft pid =>
      dsimp only [handleServerMessage]
      refine ⟨?_, ?_⟩
      · exact jsDelete_keys_nodup s.players pid hnd
      · intro q hq
        obtain ⟨pid0, hpid0, hlk⟩ := hal q hq
        have hne : pid0 ≠ pid := fun he => hok (he ▸ hpid0)
        refine ⟨pid0, hpid0, ?_⟩
        rw [jsLookup_delete_ne s.players pid pid0 hne]
        exact hlk
  | unrecognized => exact ⟨hnd, hal⟩

/-- A run of inbound messages, each acceptable in the state it is
handled in. -/
inductive HandlesOK : GameState → List ServerMessage → GameState → Prop
  | nil (s : GameState) : HandlesOK s [] s
  | cons {s s2 : GameState} (m : ServerMessage) (ms : List ServerMessage) :
      msgOKAt s m → HandlesOK (handleServerMessage s m) ms s2 → HandlesOK s (m :: ms) s2

theorem storeInv_handles : ∀ {s s2 : GameState} {ms : List ServerMessage},
    StoreInv s → HandlesOK s ms s2 → StoreInv s2
  | _, _, _, hInv, HandlesOK.nil _ => hInv
  | _, _, _, hInv, HandlesOK.cons m ms hok hrest =>
      storeInv_handles (storeInv_step _ m hInv hok) hrest

/-- C7 as amended: for every sequence of inbound messages in which no
`player_joined` or `player_left` carries the current local id (and join
acknowledgments carry duplicate-free maps), every state along the run
satisfies the store identity invariant: at most one player per id, and
the designated local record equals the entry under the local id. -/
theorem store_identity_invariant (itemDraws : List (ItemType × ℚ × ℚ))
    (snakeDraws : List (ℚ × ℚ)) (cw ch : ℚ) (ms : List ServerMessage) (s2 : GameState)
    (h : HandlesOK (initState itemDraws snakeDraws cw ch) ms s2) : StoreInv s2 := by
  have hInit : StoreInv (initState itemDraws snakeDraws cw ch) := by
    refine ⟨?_, fun _ hp => Option.noConfusion hp⟩
    show (([] : List (String × Player)).map Prod.fst).Nodup
    simp
  exact storeInv_handles hInit h

/-- The player of the aliasing counterexample. -/
def aliasDemoPlayer : Player :=
  { playerId := "a", username := "Ann", avatar := "robot",
    x := 1, y := 2, facing := .north, animationFrame := 0 }

/-- The state after a successful join as "a" followed by `player_left`
for "a" itself. -/
def aliasDemoFinal : GameState :=
  handleServerMessage
    (handleServerMessage (initState [] [] 800 600)
      (ServerMessage.joinSuccess "a" [("a", aliasDemoPlayer)] []))
    (ServerMessage.playerLeft "a")

/-- C7 counterexample: after a successful join, a `player_left` message
for the local id deletes the store entry but leaves the designated local
record in place — the local player is still designated while the player
collection has no entry under the local id, so the claimed aliasing
fails on this message sequence. -/
theorem local_alias_counterexample :
    aliasDemoFinal.myPlayer = some aliasDemoPlayer ∧
    aliasDemoFinal.playerId = some "a" ∧
    jsLookup aliasDemoFinal.players "a" = none := by
  refine ⟨?_, ?_, ?_⟩ <;> rfl

/-- A delta moving "a", used in the C7 witness run. -/
def aliasDemoDelta : PlayerDelta :=
  { x := some 5, y := none, facing := none, animationFrame := none }

/-- Witness for C7 (amended): the invariant holds after a join followed
by a movement delta for the local player. -/
theorem store_identity_invariant_witness :
    StoreInv (handleServerMessage
      (handleServerMessage (initState [] [] 800 600)
        (ServerMessage.joinSuccess "a" [("a", aliasDemoPlayer)] []))
      (ServerMessage.playersMoved [("a", aliasDemoDelta)])) :=
  store_identity_invariant [] [] 800 600
    [ServerMessage.joinSuccess "a" [("a", aliasDemoPlayer)] [],
      ServerMessage.playersMoved [("a", aliasDemoDelta)]] _
    (HandlesOK.cons _ _ (by simp [msgOKAt])
      (HandlesOK.cons _ _ trivial (HandlesOK.nil _)))

/-! ### C10 — inventory counters match collected items -/

theorem countCollected_cons (it : Item) (l : List Item) :
    countCollected (it :: l) = countCollected l + (if it.collected = true then 1 else 0) := by
  simp [countCollected, List.countP_cons]

theorem inventorySum_incInventory (inv : Inventory) (ty : ItemType) :
    inventorySum (incInventory inv ty) = inventorySum inv + 1 := by
  cases ty <;> simp [incInventory, inventorySum] <;> omega

theorem incInventory_one_counter (inv : Inventory) (ty : ItemType) :
    incInventory inv ty = { inv with bananas := inv.bananas + 1 } ∨
    incInventory inv ty = { inv with apples := inv.apples + 1 } ∨
    incInventory inv ty = { inv with blueberries := inv.blueberries + 1 } := by
  cases ty
  · exact Or.inl rfl
  · exact Or.inr (Or.inl rfl)
  · exact Or.inr (Or.inr rfl)

theorem runItems_sum (p : Player) :
    ∀ (l : List Item) (s : GameState),
      inventorySum (runItems p s l).1.inventory + countCollected l =
        inventorySum s.inventory + countCollected (runItems p s l).2
  | [], s => rfl
  | it :: rest, s => by
      have ih := runItems_sum p rest (processItem p s it).1
      show inventorySum (runItems p (processItem p s it).1 rest).1.inventory +
          countCollected (it :: rest) =
        inventorySum s.inventory +
          countCollected ((processItem p s it).2 ::
            (runItems p (processItem p s it).1 rest).2)
      rw [countCollected_cons, countCollected_cons]
      by_cases hc : it.collected = true
      · have e : processItem p s it = (s, it) := processItem_collected_noop p s it hc
        rw [e] at ih ⊢
        dsimp only at ih ⊢
        simp only [hc, if_true] at ih ⊢
        omega
      · have hcf : it.collected = false := by
          revert hc
          cases it.collected <;> simp
        by_cases hh : itemHit p it = true
        · have e : processItem p s it = collectItem p s it := by
            simp [processItem, hcf, hh]
          rw [e] at ih ⊢
          simp only [collectItem] at ih ⊢
          rw [inventorySum_incInventory] at ih
          simp only [hcf, if_true] at ih ⊢
          simp at ih ⊢
          omega
        · have hhf : itemHit p it = false := by
            revert hh
            cases itemHit p it <;> simp
          have e : processItem p s it = (s, it) := by
            simp [processItem, hcf, hhf]
          rw [e] at ih ⊢
          dsimp only at ih ⊢
          simp only [hcf] at ih ⊢
          simp at ih ⊢
          omega

theorem checkItemCollisions_sum (s : GameState)
    (hinv : inventorySum s.inventory = countCollected s.items) :
    inventorySum (checkItemCollisions s).inventory =
      countCollected (checkItemCollisions s).items := by
  unfold checkItemCollisions
  cases hm : s.myPlayer with
  | none => exact hinv
  | some p =>
      have h2 := runItems_sum p s.items s
      show inventorySum (runItems p s s.items).1.inventory =
        countCollected (runItems p s s.items).2
      omega

theorem simTick_sum (now : Int) (s : GameState)
    (hinv : inventorySum s.inventory = countCollected s.items) :
    inventorySum (simTick now s).inventory = countCollected (simTick now s).items := by
  unfold simTick
  rw [updateFloatingTexts_inventory, updateFloatingTexts_items,
    checkSnakeCollisions_inventory, checkSnakeCollisions_items]
  exact checkItemCollisions_sum s hinv

theorem spawnItemsFrom_uncollected :
    ∀ (i : Nat) (draws : List (ItemType × ℚ × ℚ)),
      countCollected (spawnItemsFrom i draws) = 0
  | _, [] => rfl
  | i, d :: rest => by
      show countCollected
        ({ id := i, type := d.1, x := d.2.1, y := d.2.2, collected := false } ::
          spawnItemsFrom (i + 1) rest) = 0
      rw [countCollected_cons, spawnItemsFrom_uncollected (i + 1) rest]
      simp

theorem reachable_inventory_sum {s : GameState} (h : Reachable s) :
    inventorySum s.inventory = countCollected s.items := by
  induction h with
  | init itemDraws snakeDraws cw ch =>
      show inventorySum { bananas := 0, apples := 0, blueberries := 0 } =
        countCollected (spawnItems itemDraws)
      rw [show inventorySum { bananas := 0, apples := 0, blueberries := 0 } = 0 from rfl]
      exact (spawnItemsFrom_uncollected 0 itemDraws).symm
  | @msg s0 m hr hwf ih =>
      have hfr := handleServerMessage_frame s0 m
      rw [hfr.2.1, hfr.2.2.1]
      exact ih
  | @tick s0 now hr ih => exact simTick_sum now s0 ih
  | @resize s0 w hgt hr ih =>
      have hfr := resizeCanvas_frame s0 w hgt
      rw [hfr.2.2.2.2.1, hfr.2.2.2.2.2.1]
      exact ih

theorem incInventory_mono (inv : Inventory) (ty : ItemType) :
    inv.bananas ≤ (incInventory inv ty).bananas ∧
    inv.apples ≤ (incInventory inv ty).apples ∧
    inv.blueberries ≤ (incInventory inv ty).blueberries := by
  cases ty <;> simp [incInventory]

theorem processItem_inventory_mono (p : Player) (s : GameState) (it : Item) :
    s.inventory.bananas ≤ (processItem p s it).1.inventory.bananas ∧
    s.inventory.apples ≤ (processItem p s it).1.inventory.apples ∧
    s.inventory.blueberries ≤ (processItem p s it).1.inventory.blueberries := by
  unfold processItem collectItem
  split
  · exact ⟨le_refl _, le_refl _, le_refl _⟩
  split
  · exact incInventory_mono s.inventory it.type
  · exact ⟨le_refl _, le_refl _, le_refl _⟩

theorem runItems_inventory_mono (p : Player) :
    ∀ (l : List Item) (s : GameState),
      s.inventory.bananas ≤ (runItems p s l).1.inventory.bananas ∧
      s.inventory.apples ≤ (runItems p s l).1.inventory.apples ∧
      s.inventory.blueberries ≤ (runItems p s l).1.inventory.blueberries
  | [], _ => ⟨le_refl _, le_refl _, le_refl _⟩
  | it :: rest, s => by
      obtain ⟨g1, g2, g3⟩ := processItem_inventory_mono p s it
      obtain ⟨g4, g5, g6⟩ := runItems_inventory_mono p rest (processItem p s it).1
      exact ⟨le_trans g1 g4, le_trans g2 g5, le_trans g3 g6⟩

theorem simTick_inventory_mono (now : Int) (s : GameState) :
    s.inventory.bananas ≤ (simTick now s).inventory.bananas ∧
    s.inventory.apples ≤ (simTick now s).inventory.apples ∧
    s.inventory.blueberries ≤ (simTick now s).inventory.blueberries := by
  unfold simTick
  rw [updateFloatingTexts_inventory, checkSnakeCollisions_inventory]
  unfold checkItemCollisions
  cases hm : s.myPlayer with
  | none => exact ⟨le_refl _, le_refl _, le_refl _⟩
  | some p => exact runItems_inventory_mono p s.items s

/-- The conjunction claimed by C10: in every reachable state the three
inventory counters sum to the number of collected items; counters never
decrease across a simulation tick; message handling, the hazard pass
and floating-text aging never touch the inventory; and a successful
collection increments exactly one counter (the one matching the item
type) by exactly 1. -/
def InventorySpec (s : GameState) (now : Int) (m : ServerMessage) : Prop :=
  (∀ s' : GameState, Reachable s' →
      inventorySum s'.inventory = countCollected s'.items) ∧
  (s.inventory.bananas ≤ (simTick now s).inventory.bananas ∧
    s.inventory.apples ≤ (simTick now s).inventory.apples ∧
    s.inventory.blueberries ≤ (simTick now s).inventory.blueberries) ∧
  (handleServerMessage s m).inventory = s.inventory ∧
  (checkSnakeCollisions now s).inventory = s.inventory ∧
  (updateFloatingTexts s).inventory = s.inventory ∧
  (∀ (p : Player) (st : GameState) (it : Item),
      (collectItem p st it).1.inventory = incInventory st.inventory it.type) ∧
  (∀ (inv : Inventory) (ty : ItemType),
      inventorySum (incInventory inv ty) = inventorySum inv + 1 ∧
      (incInventory inv ty = { inv with bananas := inv.bananas + 1 } ∨
        incInventory inv ty = { inv with apples := inv.apples + 1 } ∨
        incInventory inv ty = { inv with blueberries := inv.blueberries + 1 }))

/-- C10: bananas + apples + blueberries equals the number of collected
items in every reachable state; each counter is non-decreasing over
ticks; only a successful pickup mutates the inventory, incrementing
exactly one counter by exactly 1. -/
theorem inventory_sum_invariant (s : GameState) (now : Int) (m : ServerMessage) :
    InventorySpec s now m := by
  refine ⟨?_, simTick_inventory_mono now s, (handleServerMessage_frame s m).2.2.1,
    checkSnakeCollisions_inventory now s, updateFloatingTexts_inventory s, ?_, ?_⟩
  · intro s' hs'
    exact reachable_inventory_sum hs'
  · intro p st it
    rfl
  · intro inv ty
    exact ⟨inventorySum_incInventory inv ty, incInventory_one_counter inv ty⟩

/-- Witness for C10 at the initial state with tick time 0 and an
unrecognized message. -/
theorem inventory_sum_invariant_witness :
    InventorySpec (initState [] [] 800 600) 0 ServerMessage.unrecognized :=
  inventory_sum_invariant (initState [] [] 800 600) 0 ServerMessage.unrecognized

end Game
